import Mathlib

/-!
The plugin zathura-pdf-poppler: a shallow embedding of `src/pdf.c`.

The plugin translates calls of the zathura host into calls of the poppler
library.  The embedding below follows `src/pdf.c` function by function.

* C pointers that the code compares with `NULL` are `Option` values.
* A `GList*` is a `List`; the `NULL` list is the empty list, exactly as in glib.
* What the native library answers for a document or a page (its link mapping,
  its named-destination table, its outline, ...) is a field of the record that
  stands for the native handle.
* Functions of glib, girara and zathura whose result the code inspects are
  fields of `Host`.
* Coordinates are C `double`s.  The code only copies and subtracts them, so the
  coordinate type is a parameter `α` with a subtraction.
* `int` values are `Int`; a store into an `unsigned int` field is `to_unsigned`.
-/

namespace PdfPoppler

/-! ## Types of the host (zathura, girara) and of the native library (poppler) -/

/-- Error codes of the host, in the order of the C enumeration. -/
inductive zathura_error_t where
  | ZATHURA_ERROR_OK
  | ZATHURA_ERROR_UNKNOWN
  | ZATHURA_ERROR_OUT_OF_MEMORY
  | ZATHURA_ERROR_NOT_IMPLEMENTED
  | ZATHURA_ERROR_INVALID_ARGUMENTS
  | ZATHURA_ERROR_INVALID_PASSWORD
  deriving DecidableEq, Repr

/-- Link kinds of the host. -/
inductive zathura_link_type_t where
  | ZATHURA_LINK_INVALID
  | ZATHURA_LINK_TO_PAGE
  | ZATHURA_LINK_EXTERNAL
  deriving DecidableEq, Repr

/-- The union `zathura_link_target_t`: an `unsigned int page_number` or a
`char* uri`.  The initialiser `{ 0 }` is `page_number 0`. -/
inductive zathura_link_target_t where
  | page_number (n : Nat)
  | uri (u : Option String)
  deriving DecidableEq, Repr

/-- Rectangle of the host (view space). -/
structure zathura_rectangle_t (α : Type) where
  x1 : α
  y1 : α
  x2 : α
  y2 : α
  deriving DecidableEq, Repr

/-- Rectangle of the native library (native space). -/
structure PopplerRectangle (α : Type) where
  x1 : α
  y1 : α
  x2 : α
  y2 : α
  deriving DecidableEq, Repr

/-- The link record built by the host constructor `zathura_link_new (type,
position, target)`: the three arguments it is given. -/
structure zathura_link_t (α : Type) where
  type : zathura_link_type_t
  position : zathura_rectangle_t α
  target : zathura_link_target_t
  deriving DecidableEq, Repr

/-- Outline entry of the host: `zathura_index_element_t`. -/
structure zathura_index_element_t where
  title : String
  type : zathura_link_type_t
  target : zathura_link_target_t
  deriving DecidableEq, Repr

/-- Tree node of girara: a payload and the ordered children. -/
inductive girara_tree_node_t where
  | mk (data : Option zathura_index_element_t) (children : List girara_tree_node_t)

/-- Action kinds of the native library. -/
inductive PopplerActionType where
  | POPPLER_ACTION_UNKNOWN
  | POPPLER_ACTION_NONE
  | POPPLER_ACTION_GOTO_DEST
  | POPPLER_ACTION_GOTO_REMOTE
  | POPPLER_ACTION_LAUNCH
  | POPPLER_ACTION_URI
  | POPPLER_ACTION_NAMED
  | POPPLER_ACTION_MOVIE
  | POPPLER_ACTION_RENDITION
  | POPPLER_ACTION_OCG_STATE
  | POPPLER_ACTION_JAVASCRIPT
  deriving DecidableEq, Repr

/-- Destination kinds of the native library. -/
inductive PopplerDestType where
  | POPPLER_DEST_UNKNOWN
  | POPPLER_DEST_XYZ
  | POPPLER_DEST_FIT
  | POPPLER_DEST_FITH
  | POPPLER_DEST_FITV
  | POPPLER_DEST_FITR
  | POPPLER_DEST_FITB
  | POPPLER_DEST_FITBH
  | POPPLER_DEST_FITBV
  | POPPLER_DEST_NAMED
  deriving DecidableEq, Repr

/-- Native destination: its kind, its one-based `int page_num`, its name. -/
structure PopplerDest where
  type : PopplerDestType
  page_num : Int
  named_dest : Option String
  deriving DecidableEq, Repr

/-- Native action.  `uri` is the member `uri.uri`, read when `type` is
`POPPLER_ACTION_URI`; `dest` is the member `goto_dest.dest`, read when `type`
is `POPPLER_ACTION_GOTO_DEST`; `title` is `any.title`. -/
structure PopplerAction where
  type : PopplerActionType
  title : String
  uri : Option String
  dest : PopplerDest
  deriving DecidableEq, Repr

/-- One entry of a page's native link mapping. -/
structure PopplerLinkMapping (α : Type) where
  area : PopplerRectangle α
  action : PopplerAction
  deriving DecidableEq, Repr

/-- One entry of a page's native image mapping. -/
structure PopplerImageMapping (α : Type) where
  area : PopplerRectangle α
  image_id : Int
  deriving DecidableEq, Repr

/-- One entry of the native outline: what `poppler_index_iter_get_action`
answers at the entry (`none` for `NULL`) and the sibling sequence that
`poppler_index_iter_get_child` answers (`[]` for `NULL`). -/
inductive PopplerIndexItem where
  | mk (action : Option PopplerAction) (child : List PopplerIndexItem)

/-- Native attachment. -/
structure PopplerAttachment where
  name : Option String
  deriving DecidableEq, Repr

/-- Native document handle, as the answers of the library about it:
`poppler_document_get_n_pages`, `poppler_document_find_dest`,
`poppler_index_iter_new` (`[]` for `NULL`), `poppler_document_has_attachments`
and `poppler_document_get_attachments`. -/
structure PopplerDocument where
  n_pages : Int
  find_dest : String → Option PopplerDest
  index_iter : List PopplerIndexItem
  has_attachments : Bool
  attachments : List PopplerAttachment

/-- Native page handle, as the answers of the library about it:
`poppler_page_get_link_mapping`, `poppler_page_find_text` (an entry of the
result list holds a rectangle, `none` for a `NULL` data pointer) and
`poppler_page_get_image_mapping`. -/
structure PopplerPage (α : Type) where
  link_mapping : List (PopplerLinkMapping α)
  find_text : String → List (Option (PopplerRectangle α))
  image_mapping : List (PopplerImageMapping α)

/-- Document of the host: path, password, the plugin data (the native
handle) and the `unsigned int` page count. -/
structure zathura_document_t where
  path : Option String
  password : Option String
  data : Option PopplerDocument
  number_of_pages : Nat

/-- Page of the host: its document and its height. -/
structure zathura_page_t (α : Type) where
  document : zathura_document_t
  height : α

/-- Error object of glib; only its `code` is read. -/
structure GError where
  code : Int
  deriving DecidableEq, Repr

/-- Value of `POPPLER_ERROR_ENCRYPTED` in the enumeration `PopplerError`. -/
def POPPLER_ERROR_ENCRYPTED : Int := 1

/-- Functions of glib, girara, zathura and poppler whose result `src/pdf.c`
inspects.  `girara_list_new_succeeds` says whether the list constructors
(`girara_list_new`, `girara_list_new2`, `girara_sorted_list_new2`) return a
list rather than `NULL`. -/
structure Host where
  g_markup_escape_text : String → String
  zathura_index_element_new : String → Option zathura_index_element_t
  girara_list_new_succeeds : Bool
  g_filename_to_uri : Option String → Option String
  poppler_document_new_from_file : String → Option String → Option PopplerDocument × Option GError
  poppler_attachment_save : PopplerAttachment → Option String → Bool

/-- Store of an `int` into an `unsigned int` (32 bits). -/
def to_unsigned (x : Int) : Nat := (x % 4294967296).toNat

/-- The statement `if (error != NULL) *error = e`: `error` is the content of
the location the pointer refers to, `none` for a `NULL` pointer. -/
def set_error (error : Option zathura_error_t) (e : zathura_error_t) : Option zathura_error_t :=
  match error with
  | none => none
  | some _ => some e

/-- The call `poppler_document_find_dest (poppler_document, link_name)`: it
answers `NULL` for a `NULL` document or name. -/
def poppler_document_find_dest (poppler_document : Option PopplerDocument)
    (link_name : Option String) : Option PopplerDest :=
  match poppler_document, link_name with
  | some d, some n => d.find_dest n
  | _, _ => none

open zathura_error_t zathura_link_type_t PopplerActionType PopplerDestType

/-! ## `pdf_page_links_get` (src/pdf.c, lines 591-683) -/

section Coordinates

variable {α : Type} [Sub α]

/-- Body of the `for` loop of `pdf_page_links_get` (lines 622-663) for one
entry of the reversed mapping: the link that is appended to the list, or
`none` when the `default` case runs `continue`. -/
def pdf_page_links_get_body (page : zathura_page_t α) (poppler_link : PopplerLinkMapping α) :
    Option (zathura_link_t α) :=
  let poppler_document := page.document.data
  /- extract position -/
  let position : zathura_rectangle_t α :=
    { x1 := poppler_link.area.x1
      x2 := poppler_link.area.x2
      y1 := page.height - poppler_link.area.y2
      y2 := page.height - poppler_link.area.y1 }
  /- extract type and target -/
  let target : zathura_link_target_t := zathura_link_target_t.page_number 0
  match poppler_link.action.type with
  | POPPLER_ACTION_URI =>
    some { type := ZATHURA_LINK_EXTERNAL, position := position,
           target := zathura_link_target_t.uri poppler_link.action.uri }
  | POPPLER_ACTION_GOTO_DEST =>
    if poppler_link.action.dest.type = POPPLER_DEST_NAMED then
      match poppler_document_find_dest poppler_document poppler_link.action.dest.named_dest with
      | some poppler_destination =>
        some { type := ZATHURA_LINK_TO_PAGE, position := position,
               target := zathura_link_target_t.page_number
                 (to_unsigned (poppler_destination.page_num - 1)) }
      | none =>
        some { type := ZATHURA_LINK_TO_PAGE, position := position, target := target }
    else
      some { type := ZATHURA_LINK_TO_PAGE, position := position,
             target := zathura_link_target_t.page_number
               (to_unsigned (poppler_link.action.dest.page_num - 1)) }
  | _ => none

/-- The `for` loop of `pdf_page_links_get` (line 621): it walks the reversed
mapping and appends each built link at the end of `list`. -/
def pdf_page_links_get_loop (page : zathura_page_t α) :
    List (PopplerLinkMapping α) → List (zathura_link_t α) → List (zathura_link_t α)
  | [], list => list
  | poppler_link :: link, list =>
    match pdf_page_links_get_body page poppler_link with
    | some zathura_link => pdf_page_links_get_loop page link (list ++ [zathura_link])
    | none => pdf_page_links_get_loop page link list

/-- The function `pdf_page_links_get`: the returned list (`none` for `NULL`)
and the content of `*error` afterwards. -/
def pdf_page_links_get (host : Host) (page : Option (zathura_page_t α))
    (poppler_page : Option (PopplerPage α)) (error : Option zathura_error_t) :
    Option (List (zathura_link_t α)) × Option zathura_error_t :=
  match page, poppler_page with
  | some page, some poppler_page =>
    let link_mapping := poppler_page.link_mapping
    if link_mapping.isEmpty || link_mapping.length == 0 then
      (none, set_error error ZATHURA_ERROR_UNKNOWN)
    else
      let link_mapping := link_mapping.reverse
      if host.girara_list_new_succeeds then
        (some (pdf_page_links_get_loop page link_mapping []), error)
      else
        (none, set_error error ZATHURA_ERROR_OUT_OF_MEMORY)
  | _, _ => (none, set_error error ZATHURA_ERROR_INVALID_ARGUMENTS)

/-! ## `pdf_page_search_text` (src/pdf.c, lines 529-589) -/

/-- The `for` loop of `pdf_page_search_text` (line 561): it stops at the end
of the result list or at the first entry without data. -/
def pdf_page_search_text_loop (page : zathura_page_t α) :
    List (Option (PopplerRectangle α)) → List (zathura_rectangle_t α) → List (zathura_rectangle_t α)
  | [], list => list
  | none :: _, list => list
  | some poppler_rectangle :: entry, list =>
    let rectangle : zathura_rectangle_t α :=
      { x1 := poppler_rectangle.x1
        x2 := poppler_rectangle.x2
        y1 := page.height - poppler_rectangle.y2
        y2 := page.height - poppler_rectangle.y1 }
    pdf_page_search_text_loop page entry (list ++ [rectangle])

/-- The function `pdf_page_search_text`: the returned list (`none` for
`NULL`) and the content of `*error` afterwards. -/
def pdf_page_search_text (host : Host) (page : Option (zathura_page_t α))
    (poppler_page : Option (PopplerPage α)) (text : Option String)
    (error : Option zathura_error_t) :
    Option (List (zathura_rectangle_t α)) × Option zathura_error_t :=
  match page, poppler_page, text with
  | some page, some poppler_page, some text =>
    if text.length = 0 then
      (none, set_error error ZATHURA_ERROR_INVALID_ARGUMENTS)
    else
      /- search text -/
      let results := poppler_page.find_text text
      if results.isEmpty || results.length == 0 then
        (none, set_error error ZATHURA_ERROR_UNKNOWN)
      else if host.girara_list_new_succeeds then
        (some (pdf_page_search_text_loop page results []), error)
      else
        (none, set_error error ZATHURA_ERROR_OUT_OF_MEMORY)
  | _, _, _ => (none, set_error error ZATHURA_ERROR_INVALID_ARGUMENTS)

end Coordinates

/-! ## `build_index` and `pdf_document_index_generate` (src/pdf.c, lines 137-222) -/

/-- The call `girara_node_append_data (root, data)` followed by the work on
the new node: `node` is the new last child of `root`. -/
def girara_node_append (root node : girara_tree_node_t) : girara_tree_node_t :=
  match root with
  | girara_tree_node_t.mk data children => girara_tree_node_t.mk data (children ++ [node])

/-- Children of a tree node, in order. -/
def girara_tree_node_t.children : girara_tree_node_t → List girara_tree_node_t
  | girara_tree_node_t.mk _ children => children

/-- Payload of a tree node. -/
def girara_tree_node_t.data : girara_tree_node_t → Option zathura_index_element_t
  | girara_tree_node_t.mk data _ => data

/-- Action of an outline entry. -/
def PopplerIndexItem.action : PopplerIndexItem → Option PopplerAction
  | PopplerIndexItem.mk action _ => action

/-- Child sequence of an outline entry. -/
def PopplerIndexItem.child : PopplerIndexItem → List PopplerIndexItem
  | PopplerIndexItem.mk _ child => child

mutual
/-- The function `build_index` (lines 137-195); the result is `root` after the
call.  `iter` is the sibling sequence from the position of the iterator on;
`[]` is the `NULL` iterator of the guard in line 140 and also the end of the
`do ... while (poppler_index_iter_next (iter))` loop. -/
def build_index (host : Host) (poppler_document : Option PopplerDocument)
    (root : girara_tree_node_t) : List PopplerIndexItem → girara_tree_node_t
  | [] => root
  | item :: iter =>
    match poppler_document with
    | none => root
    | some _ => build_index host poppler_document (build_index_body host poppler_document root item) iter
/-- Body of the `do` loop of `build_index` (lines 145-192) at one entry; a
`continue` leaves `root` as it is. -/
def build_index_body (host : Host) (poppler_document : Option PopplerDocument)
    (root : girara_tree_node_t) : PopplerIndexItem → girara_tree_node_t
  | PopplerIndexItem.mk none _ => root
  | PopplerIndexItem.mk (some action) child =>
    let markup := host.g_markup_escape_text action.title
    match host.zathura_index_element_new markup with
    | none => root
    | some index_element =>
      if action.type = POPPLER_ACTION_URI then
        let index_element := { index_element with
          type := ZATHURA_LINK_EXTERNAL, target := zathura_link_target_t.uri action.uri }
        girara_node_append root
          (build_index host poppler_document (girara_tree_node_t.mk (some index_element) []) child)
      else if action.type = POPPLER_ACTION_GOTO_DEST then
        let index_element := { index_element with type := ZATHURA_LINK_TO_PAGE }
        let index_element :=
          if action.dest.type = POPPLER_DEST_NAMED then
            match poppler_document_find_dest poppler_document action.dest.named_dest with
            | some dest =>
              { index_element with
                target := zathura_link_target_t.page_number (to_unsigned (dest.page_num - 1)) }
            | none => index_element
          else
            { index_element with
              target := zathura_link_target_t.page_number (to_unsigned (action.dest.page_num - 1)) }
        girara_node_append root
          (build_index host poppler_document (girara_tree_node_t.mk (some index_element) []) child)
      else
        root
end

/-- The function `pdf_document_index_generate` (lines 197-222): the returned
root (`none` for `NULL`) and the content of `*error` afterwards. -/
def pdf_document_index_generate (host : Host) (document : Option zathura_document_t)
    (poppler_document : Option PopplerDocument) (error : Option zathura_error_t) :
    Option girara_tree_node_t × Option zathura_error_t :=
  match document, poppler_document with
  | some _, some pd =>
    let iter := pd.index_iter
    if iter.isEmpty then
      (none, set_error error ZATHURA_ERROR_OUT_OF_MEMORY)
    else
      let root := girara_tree_node_t.mk (host.zathura_index_element_new "ROOT") []
      (some (build_index host poppler_document root iter), error)
  | _, _ => (none, set_error error ZATHURA_ERROR_INVALID_ARGUMENTS)

/-! ## `pdf_document_open` (src/pdf.c, lines 65-120) -/

/-- The function `pdf_document_open`: the returned code and the host document
afterwards.  `poppler_document_indeterminate` is the value of the local
`poppler_document` when `goto error_free` jumps over its initialisation
(line 80); the label reads it in line 114. -/
def pdf_document_open (host : Host) (poppler_document_indeterminate : Option PopplerDocument)
    (document : Option zathura_document_t) : zathura_error_t × Option zathura_document_t :=
  match document with
  | none => (ZATHURA_ERROR_INVALID_ARGUMENTS, none)
  | some document =>
    /- format path -/
    match host.g_filename_to_uri document.path with
    | none =>
      /- error_free, reached with error = ZATHURA_ERROR_UNKNOWN -/
      match poppler_document_indeterminate with
      | some _ => (ZATHURA_ERROR_UNKNOWN, some { document with data := none })
      | none => (ZATHURA_ERROR_UNKNOWN, some document)
    | some file_uri =>
      match host.poppler_document_new_from_file file_uri document.password with
      | (none, gerror) =>
        /- error_free, with poppler_document == NULL -/
        match gerror with
        | some g =>
          if g.code = POPPLER_ERROR_ENCRYPTED then
            (ZATHURA_ERROR_INVALID_PASSWORD, some document)
          else
            (ZATHURA_ERROR_UNKNOWN, some document)
        | none => (ZATHURA_ERROR_UNKNOWN, some document)
      | (some poppler_document, _) =>
        (ZATHURA_ERROR_OK,
          some { document with
            data := some poppler_document
            number_of_pages := to_unsigned poppler_document.n_pages })

/-! ## `pdf_document_attachment_save` (src/pdf.c, lines 276-303) -/

/-- A `gboolean` returned where the function type says `zathura_error_t`:
`FALSE` is the enumerator 0 and `TRUE` the enumerator 1. -/
def gboolean_as_zathura_error (b : Bool) : zathura_error_t :=
  if b then ZATHURA_ERROR_UNKNOWN else ZATHURA_ERROR_OK

/-- The `for` loop of `pdf_document_attachment_save` (lines 293-300) and the
`return` after it: the returned code and the calls of
`poppler_attachment_save` made, as pairs of attachment and file.  The test
`g_strcmp0 (attachment->name, attachmentname) != 0` is inequality of two
possibly `NULL` strings. -/
def pdf_document_attachment_save_loop (host : Host) (attachmentname file : Option String) :
    List PopplerAttachment → zathura_error_t × List (PopplerAttachment × Option String)
  | [] => (ZATHURA_ERROR_OK, [])
  | attachment :: attachments =>
    if attachment.name ≠ attachmentname then
      pdf_document_attachment_save_loop host attachmentname file attachments
    else
      (gboolean_as_zathura_error (host.poppler_attachment_save attachment file),
        [(attachment, file)])

/-- The function `pdf_document_attachment_save`: the returned code and the
calls of `poppler_attachment_save` made. -/
def pdf_document_attachment_save (host : Host) (document : Option zathura_document_t)
    (poppler_document : Option PopplerDocument) (attachmentname file : Option String) :
    zathura_error_t × List (PopplerAttachment × Option String) :=
  match document, poppler_document with
  | some _, some pd =>
    if pd.has_attachments = false then
      (ZATHURA_ERROR_INVALID_ARGUMENTS, [])
    else
      let attachment_list := pd.attachments
      pdf_document_attachment_save_loop host attachmentname file attachment_list
  | _, _ => (ZATHURA_ERROR_INVALID_ARGUMENTS, [])

/-! ## `pdf_page_images_get` (src/pdf.c, lines 305-373) -/

/-- Image handle of the host, `zathura_image_t`: the position and the `data`
pointer, which the plugin lets point to a `gint` holding the native image id
(`none` for `NULL`). -/
structure zathura_image_t (α : Type) where
  position : zathura_rectangle_t α
  data : Option Int
  deriving DecidableEq, Repr

/-- The `for` loop of `pdf_page_images_get` (lines 336-354): for each entry of
the image mapping one image handle is appended at the end of `list`. -/
def pdf_page_images_get_loop {α : Type} :
    List (PopplerImageMapping α) → List (zathura_image_t α) → List (zathura_image_t α)
  | [], list => list
  | poppler_image :: image, list =>
    /- extract id -/
    let image_id := poppler_image.image_id
    /- extract position -/
    let zathura_image : zathura_image_t α :=
      { data := some image_id
        position :=
          { x1 := poppler_image.area.x1
            x2 := poppler_image.area.x2
            y1 := poppler_image.area.y1
            y2 := poppler_image.area.y2 } }
    pdf_page_images_get_loop image (list ++ [zathura_image])

/-- The function `pdf_page_images_get`: the returned list (`none` for `NULL`)
and the content of `*error` afterwards.  The page of the host is only compared
with `NULL`. -/
def pdf_page_images_get {α : Type} (host : Host) (page : Option (zathura_page_t α))
    (poppler_page : Option (PopplerPage α)) (error : Option zathura_error_t) :
    Option (List (zathura_image_t α)) × Option zathura_error_t :=
  match page, poppler_page with
  | some _, some poppler_page =>
    let image_mapping := poppler_page.image_mapping
    if image_mapping.isEmpty || image_mapping.length == 0 then
      (none, set_error error ZATHURA_ERROR_UNKNOWN)
    else if host.girara_list_new_succeeds then
      (some (pdf_page_images_get_loop image_mapping []), error)
    else
      (none, set_error error ZATHURA_ERROR_OUT_OF_MEMORY)
  | _, _ => (none, set_error error ZATHURA_ERROR_INVALID_ARGUMENTS)

/-! ## `pdf_document_attachments_get` (src/pdf.c, lines 238-274) -/

/-- The sign of `strcmp` on two C strings, given as their characters: the
first position where they differ decides, and a proper initial part is
smaller.  `strcmp` compares bytes; on UTF-8 strings this is the order of the
code points. -/
def strcmp_chars : List Char → List Char → Int
  | [], [] => 0
  | [], _ :: _ => -1
  | _ :: _, [] => 1
  | a :: s1, b :: s2 =>
    if a.toNat < b.toNat then -1
    else if b.toNat < a.toNat then 1
    else strcmp_chars s1 s2

/-- The glib function `g_strcmp0`, up to the magnitude of the result: `strcmp`
that also takes `NULL`, which sorts before every string. -/
def g_strcmp0 (str1 str2 : Option String) : Int :=
  match str1, str2 with
  | none, none => 0
  | none, some _ => -1
  | some _, none => 1
  | some s1, some s2 => strcmp_chars s1.data s2.data

/-- The glib function `g_list_insert_sorted (list, data, g_strcmp0)`: `data`
goes before the first element that it does not compare greater than. -/
def g_list_insert_sorted (list : List (Option String)) (data : Option String) :
    List (Option String) :=
  match list with
  | [] => [data]
  | x :: rest =>
    if g_strcmp0 data x > 0 then x :: g_list_insert_sorted rest data
    else data :: x :: rest

/-- The girara function `girara_list_append` on a list created by
`girara_sorted_list_new2` with the comparison `g_strcmp0`: such a list has a
comparison function, and the element is inserted in sorted position. -/
def girara_list_append_sorted (list : List (Option String)) (data : Option String) :
    List (Option String) :=
  g_list_insert_sorted list data

/-- The `for` loop of `pdf_document_attachments_get` (lines 268-271): the name
of each attachment, copied by `g_strdup`, is appended to the sorted list. -/
def pdf_document_attachments_get_loop :
    List PopplerAttachment → List (Option String) → List (Option String)
  | [], res => res
  | attachment :: attachments, res =>
    pdf_document_attachments_get_loop attachments (girara_list_append_sorted res attachment.name)

/-- The function `pdf_document_attachments_get`: the returned list (`none`
for `NULL`) and the content of `*error` afterwards. -/
def pdf_document_attachments_get (host : Host) (document : Option zathura_document_t)
    (poppler_document : Option PopplerDocument) (error : Option zathura_error_t) :
    Option (List (Option String)) × Option zathura_error_t :=
  match document, poppler_document with
  | some _, some pd =>
    if pd.has_attachments = false then
      (none, set_error error ZATHURA_ERROR_UNKNOWN)
    else if host.girara_list_new_succeeds then
      let attachment_list := pd.attachments
      (some (pdf_document_attachments_get_loop attachment_list []), error)
    else
      (none, set_error error ZATHURA_ERROR_OUT_OF_MEMORY)
  | _, _ => (none, set_error error ZATHURA_ERROR_INVALID_ARGUMENTS)

/-! ## `pdf_page_init` and `pdf_page_clear` (src/pdf.c, lines 481-527) -/

/-- Host page with the further fields that `pdf_page_init` and
`pdf_page_clear` use: the `unsigned int` index, the plugin data (the native
page handle) and the width. -/
structure zathura_page_full_t (α : Type) extends zathura_page_t α where
  index : Nat
  data : Option (PopplerPage α)
  width : α

/-- The page functions of the native library: `poppler_document_get_page`
(a new page object, `NULL` for an index without page) and
`poppler_page_get_size` (width and height). -/
structure PopplerPages (α : Type) where
  poppler_document_get_page : PopplerDocument → Int → Option (PopplerPage α)
  poppler_page_get_size : PopplerPage α → α × α

/-- An `unsigned int` passed where the callee takes an `int` (32 bits). -/
def unsigned_to_int (n : Nat) : Int :=
  if n % 4294967296 < 2147483648 then ((n % 4294967296 : Nat) : Int)
  else ((n % 4294967296 : Nat) : Int) - 4294967296

/-- The function `pdf_page_init`: the returned code, the host page
afterwards, and the count of live native page handles afterwards.  `live` is
that count before the call; a `poppler_document_get_page` that returns a page
object acquires one handle. -/
def pdf_page_init {α : Type} (native : PopplerPages α) (page : Option (zathura_page_full_t α))
    (live : Int) : zathura_error_t × Option (zathura_page_full_t α) × Int :=
  match page with
  | none => (ZATHURA_ERROR_INVALID_ARGUMENTS, none, live)
  | some page =>
    let document := page.document
    match document.data with
    | none => (ZATHURA_ERROR_UNKNOWN, some page, live)
    | some poppler_document =>
      /- init poppler data -/
      match native.poppler_document_get_page poppler_document (unsigned_to_int page.index) with
      | none => (ZATHURA_ERROR_UNKNOWN, some page, live)
      | some poppler_page =>
        /- calculate dimensions -/
        let size := native.poppler_page_get_size poppler_page
        (ZATHURA_ERROR_OK,
          some { page with data := some poppler_page, width := size.1, height := size.2 },
          live + 1)

/-- The function `pdf_page_clear`: the returned code and the count of live
native page handles afterwards.  `g_object_unref (poppler_page)` releases one
handle. -/
def pdf_page_clear {α : Type} (page : Option (zathura_page_full_t α))
    (poppler_page : Option (PopplerPage α)) (live : Int) : zathura_error_t × Int :=
  match page with
  | none => (ZATHURA_ERROR_INVALID_ARGUMENTS, live)
  | some _ =>
    match poppler_page with
    | some _ => (ZATHURA_ERROR_OK, live - 1)
    | none => (ZATHURA_ERROR_OK, live)

/-! ## Definitions that follow the words of the specification -/

/-- Specification, 4.3 and 4.4: the action types that yield a link target are
"go to URI" and "go to destination". -/
def supported_action_type (t : PopplerActionType) : Bool :=
  decide (t = POPPLER_ACTION_URI) || decide (t = POPPLER_ACTION_GOTO_DEST)

/-- Specification, 4.1: `normalize(rect, page_height)` keeps x and sets
`y1 = page_height - rect.y2`, `y2 = page_height - rect.y1`. -/
def normalize {α : Type} [Sub α] (rect : PopplerRectangle α) (page_height : α) :
    zathura_rectangle_t α :=
  { x1 := rect.x1, y1 := page_height - rect.y2, x2 := rect.x2, y2 := page_height - rect.y1 }

/-- Specification, 4.3: an outline entry is kept when its action type is "go
to URI" or "go to destination"; an entry without action has neither. -/
def supported_item (item : PopplerIndexItem) : Bool :=
  match item.action with
  | some action => supported_action_type action.type
  | none => false

mutual
/-- Specification, 4.3: the outline without the entries of any other action
type and without their subtrees, at every depth. -/
def prune_index : List PopplerIndexItem → List PopplerIndexItem
  | [] => []
  | item :: iter => prune_item item ++ prune_index iter
/-- One entry of `prune_index`: dropped with its subtree, or kept with its
pruned subtree. -/
def prune_item : PopplerIndexItem → List PopplerIndexItem
  | PopplerIndexItem.mk none _ => []
  | PopplerIndexItem.mk (some action) child =>
    if supported_action_type action.type then
      [PopplerIndexItem.mk (some action) (prune_index child)]
    else []
end

/-- Specification, 4.2: the native one-based page number a destination
resolves to.  An explicit destination resolves to its own page number; a named
destination is looked up in the document, and resolution fails (`none`, the
`NotFound` of the specification) when the name is absent. -/
def resolved_page_num (poppler_document : Option PopplerDocument) (dest : PopplerDest) :
    Option Int :=
  if dest.type = POPPLER_DEST_NAMED then
    (poppler_document_find_dest poppler_document dest.named_dest).map (fun found => found.page_num)
  else
    some dest.page_num

/-- Specification, 4.6 and 8: one `initPage`/`clearPage` cycle on a logical
page, starting with `live` native page handles.  `pdf_page_clear` is passed
the handle that the preceding `pdf_page_init` stored, which is no handle when
the init failed.  The result is the count of live handles after the init, the
count after the clear, and the host page after the cycle. -/
def init_clear_cycle {α : Type} (native : PopplerPages α) (page : zathura_page_full_t α)
    (live : Int) : Int × Int × zathura_page_full_t α :=
  match pdf_page_init native (some page) live with
  | (error, some page1, live1) =>
    let stored := if error = ZATHURA_ERROR_OK then page1.data else none
    (live1, (pdf_page_clear (some page1) stored live1).2, page1)
  | (_, none, live1) => (live1, live1, page)

/-- Specification, 8: `n` repeated `initPage`/`clearPage` cycles on the same
logical page; the list holds, for each cycle in order, the count of live
native page handles after the init and after the clear. -/
def init_clear_cycles {α : Type} (native : PopplerPages α) :
    Nat → zathura_page_full_t α → Int → List (Int × Int)
  | 0, _, _ => []
  | n + 1, page, live =>
    let cycle := init_clear_cycle native page live
    (cycle.1, cycle.2.1) :: init_clear_cycles native n cycle.2.2 cycle.2.1

/-- A rectangle of the host read as a native rectangle again, coordinate by
coordinate, so that `normalize` can be applied a second time. -/
def as_native {α : Type} (rect : zathura_rectangle_t α) : PopplerRectangle α :=
  { x1 := rect.x1, y1 := rect.y1, x2 := rect.x2, y2 := rect.y2 }

/-- A native rectangle read as a rectangle of the host, coordinate by
coordinate, without any change. -/
def as_view {α : Type} (rect : PopplerRectangle α) : zathura_rectangle_t α :=
  { x1 := rect.x1, y1 := rect.y1, x2 := rect.x2, y2 := rect.y2 }

/-- Specification, 4.3: the outline element stored for a kept entry, from the
element `fresh` that the host created for the escaped title.  "Go to URI"
gives an external target with the URI of the action; "go to destination"
gives a page target with the resolved native page number minus 1, stored as
`unsigned int` (the target of `fresh` stays when resolution fails). -/
def outline_element (pd : PopplerDocument) (action : PopplerAction)
    (fresh : zathura_index_element_t) : zathura_index_element_t :=
  if action.type = POPPLER_ACTION_URI then
    { title := fresh.title, type := ZATHURA_LINK_EXTERNAL,
      target := zathura_link_target_t.uri action.uri }
  else
    { title := fresh.title, type := ZATHURA_LINK_TO_PAGE,
      target :=
        match resolved_page_num (some pd) action.dest with
        | some pn => zathura_link_target_t.page_number (to_unsigned (pn - 1))
        | none => fresh.target }

mutual
/-- Specification, 4.3: the outline nodes of a sibling sequence, by depth-first
traversal: one node per kept entry, in document order. -/
def outline_nodes (host : Host) (pd : PopplerDocument) :
    List PopplerIndexItem → List girara_tree_node_t
  | [] => []
  | item :: iter => outline_node host pd item ++ outline_nodes host pd iter
/-- Specification, 4.3: the outline node of one entry.  An entry whose action
type is "go to URI" or "go to destination" yields one node, whose children are
the outline nodes of the child sequence of the entry; any other entry yields
nothing, and its subtree is not visited.  (An entry for which the host creates
no element yields nothing either.) -/
def outline_node (host : Host) (pd : PopplerDocument) :
    PopplerIndexItem → List girara_tree_node_t
  | PopplerIndexItem.mk none _ => []
  | PopplerIndexItem.mk (some action) child =>
    if supported_action_type action.type then
      match host.zathura_index_element_new (host.g_markup_escape_text action.title) with
      | some fresh =>
        [girara_tree_node_t.mk (some (outline_element pd action fresh))
          (outline_nodes host pd child)]
      | none => []
    else []
end

/-! ## Concrete inputs -/

/-- A host whose allocations succeed: a fresh outline element carries the
given title, the type `ZATHURA_LINK_INVALID` and a zeroed target. -/
def host0 : Host :=
  { g_markup_escape_text := fun s => s
    zathura_index_element_new := fun t =>
      some { title := t, type := ZATHURA_LINK_INVALID, target := zathura_link_target_t.page_number 0 }
    girara_list_new_succeeds := true
    g_filename_to_uri := fun p => p.map (fun s => "file://" ++ s)
    poppler_document_new_from_file := fun _ _ => (none, none)
    poppler_attachment_save := fun _ _ => true }

/-- An explicit destination on the page with the one-based number `n`. -/
def dest_page (n : Int) : PopplerDest :=
  { type := POPPLER_DEST_XYZ, page_num := n, named_dest := none }

/-- A named destination. -/
def dest_named (name : String) : PopplerDest :=
  { type := POPPLER_DEST_NAMED, page_num := 0, named_dest := some name }

/-- An action of type URI. -/
def action_uri (title uri : String) : PopplerAction :=
  { type := POPPLER_ACTION_URI, title := title, uri := some uri, dest := dest_page 0 }

/-- An action of type GOTO_DEST. -/
def action_goto (title : String) (dest : PopplerDest) : PopplerAction :=
  { type := POPPLER_ACTION_GOTO_DEST, title := title, uri := none, dest := dest }

/-- An action of type LAUNCH, which the plugin does not support. -/
def action_launch (title : String) : PopplerAction :=
  { type := POPPLER_ACTION_LAUNCH, title := title, uri := none, dest := dest_page 0 }

/-- A native document with three pages; the only named destination is
`chapter2`, on page 2.  Its outline is `[A(uri), B(dest to page 2),
C(launch)]`, where `C` has a child `D(uri)`. -/
def pdoc0 : PopplerDocument :=
  { n_pages := 3
    find_dest := fun n => if n = "chapter2" then some (dest_page 2) else none
    index_iter :=
      [ PopplerIndexItem.mk (some (action_uri "A" "http://a")) [],
        PopplerIndexItem.mk (some (action_goto "B" (dest_page 2))) [],
        PopplerIndexItem.mk (some (action_launch "C"))
          [PopplerIndexItem.mk (some (action_uri "D" "http://d")) []] ]
    has_attachments := true
    attachments := [{ name := some "a.txt" }, { name := some "b.txt" }] }

/-- The host document that holds `pdoc0`. -/
def zdoc0 : zathura_document_t :=
  { path := some "/tmp/a.pdf", password := none, data := some pdoc0, number_of_pages := 3 }

/-- A page of height 100 of `zdoc0`. -/
def page0 : zathura_page_t Int := { document := zdoc0, height := 100 }

/-- Link `L1`: a jump to the named destination `chapter2`. -/
def L1 : PopplerLinkMapping Int :=
  { area := { x1 := 1, y1 := 10, x2 := 2, y2 := 30 }, action := action_goto "" (dest_named "chapter2") }

/-- Link `L2`: a jump to page 3. -/
def L2 : PopplerLinkMapping Int :=
  { area := { x1 := 3, y1 := 40, x2 := 4, y2 := 45 }, action := action_goto "" (dest_page 3) }

/-- Link `L3`: an external URI. -/
def L3 : PopplerLinkMapping Int :=
  { area := { x1 := 5, y1 := 50, x2 := 6, y2 := 70 }, action := action_uri "" "http://x" }

/-- Link `LX`: a launch action. -/
def LX : PopplerLinkMapping Int :=
  { area := { x1 := 7, y1 := 80, x2 := 8, y2 := 90 }, action := action_launch "" }

/-- A native page whose link mapping is `[L3, LX, L2, L1]` and whose text
search finds two rectangles for every text. -/
def ppage0 : PopplerPage Int :=
  { link_mapping := [L3, LX, L2, L1]
    find_text := fun _ =>
      [some { x1 := 1, y1 := 10, x2 := 2, y2 := 30 }, some { x1 := 3, y1 := 40, x2 := 4, y2 := 45 }]
    image_mapping := [] }

/-- A native page whose link mapping holds only the launch link. -/
def ppage_launch : PopplerPage Int :=
  { link_mapping := [LX], find_text := fun _ => [], image_mapping := [] }

/-- Link `LN`: a jump to the named destination `nowhere`, which `pdoc0` does
not have. -/
def LN : PopplerLinkMapping Int :=
  { area := { x1 := 1, y1 := 10, x2 := 2, y2 := 30 }, action := action_goto "" (dest_named "nowhere") }

/-- A native page whose link mapping is `[LN, L3]`. -/
def ppage_missing : PopplerPage Int :=
  { link_mapping := [LN, L3], find_text := fun _ => [], image_mapping := [] }

/-- An outline `[N(dest named nowhere), A(uri)]`. -/
def iter_missing : List PopplerIndexItem :=
  [ PopplerIndexItem.mk (some (action_goto "N" (dest_named "nowhere"))) [],
    PopplerIndexItem.mk (some (action_uri "A" "http://a")) [] ]

/-- Link `LF`: a jump to page 7 of a document that has three pages. -/
def LF : PopplerLinkMapping Int :=
  { area := { x1 := 1, y1 := 10, x2 := 2, y2 := 30 }, action := action_goto "" (dest_page 7) }

/-- A native page whose link mapping is `[LF]`. -/
def ppage_far : PopplerPage Int :=
  { link_mapping := [LF], find_text := fun _ => [], image_mapping := [] }

/-- An outline `[F(dest to page 7)]`. -/
def iter_far : List PopplerIndexItem :=
  [PopplerIndexItem.mk (some (action_goto "F" (dest_page 7))) []]

/-- A host whose native open fails and reports an encryption error. -/
def host_encrypted : Host :=
  { host0 with
    poppler_document_new_from_file := fun _ _ => (none, some { code := POPPLER_ERROR_ENCRYPTED }) }

/-- A host whose native open succeeds with `pdoc0`. -/
def host_opens : Host :=
  { host0 with poppler_document_new_from_file := fun _ _ => (some pdoc0, none) }

/-- A host document that is not open yet. -/
def zdoc_closed : zathura_document_t :=
  { path := some "/tmp/a.pdf", password := none, data := none, number_of_pages := 0 }

/-- A host document whose path is `NULL`. -/
def zdoc_nopath : zathura_document_t :=
  { path := none, password := none, data := none, number_of_pages := 0 }


/-- A native document with attachment capability whose attachments, in native
order, are named `b.txt`, `a.txt`, `c.txt` and `a.txt` again. -/
def pdoc_attachments : PopplerDocument :=
  { pdoc0 with
    attachments :=
      [{ name := some "b.txt" }, { name := some "a.txt" }, { name := some "c.txt" },
       { name := some "a.txt" }] }

/-- The page functions of a native library whose documents have three pages,
each of width 200 and height 100. -/
def native0 : PopplerPages Int :=
  { poppler_document_get_page := fun _ index =>
      if 0 ≤ index ∧ index < 3 then some ppage0 else none
    poppler_page_get_size := fun _ => (200, 100) }

/-- The host page with index 1 of `zdoc0`, before its first initialisation. -/
def page_full0 : zathura_page_full_t Int :=
  { document := zdoc0, height := 0, index := 1, data := none, width := 0 }

/-- A native page with two images. -/
def ppage_images : PopplerPage Int :=
  { link_mapping := [], find_text := fun _ => []
    image_mapping :=
      [ { area := { x1 := 1, y1 := 10, x2 := 2, y2 := 30 }, image_id := 7 },
        { area := { x1 := 3, y1 := 40, x2 := 4, y2 := 45 }, image_id := 9 } ] }

/-- A page of height 100 with rational coordinates. -/
def page_rat : zathura_page_t ℚ := { document := zdoc0, height := 100 }

/-- A link with rational coordinates: a jump to page 3. -/
def link_rat : PopplerLinkMapping ℚ :=
  { area := { x1 := 3, y1 := 40, x2 := 4, y2 := 45 }, action := action_goto "" (dest_page 3) }


/-- A native document with a nested outline: `A(uri)` has the child
`A1(dest to page 1)`, which has the child `A2(uri)`; then comes `B(dest to
page 2)`, and last `C(launch)`, which has the child `D(uri)`. -/
def pdoc_nested : PopplerDocument :=
  { pdoc0 with
    index_iter :=
      [ PopplerIndexItem.mk (some (action_uri "A" "http://a"))
          [ PopplerIndexItem.mk (some (action_goto "A1" (dest_page 1)))
              [PopplerIndexItem.mk (some (action_uri "A2" "http://a2")) []] ],
        PopplerIndexItem.mk (some (action_goto "B" (dest_page 2))) [],
        PopplerIndexItem.mk (some (action_launch "C"))
          [PopplerIndexItem.mk (some (action_uri "D" "http://d")) []] ] }

/-! ## Lemmas -/

theorem filterMap_forall2_filter {A B : Type} (f : A → Option B) (p : A → Bool)
    (hp : ∀ a, (f a).isSome = p a) (l : List A) :
    List.Forall₂ (fun b a => f a = some b) (l.filterMap f) (l.filter p) := by
  induction l with
  | nil => simp
  | cons a l ih =>
    have h := hp a
    cases hfa : f a with
    | none =>
      rw [hfa] at h
      have hpa : p a = false := by simpa using h.symm
      simp [List.filterMap_cons, hfa, List.filter_cons, hpa, ih]
    | some b =>
      rw [hfa] at h
      have hpa : p a = true := by simpa using h.symm
      simp [List.filterMap_cons, hfa, List.filter_cons, hpa, ih]

section CoordinateLemmas

variable {α : Type} [Sub α]

theorem links_loop_eq (page : zathura_page_t α) (ms : List (PopplerLinkMapping α))
    (list : List (zathura_link_t α)) :
    pdf_page_links_get_loop page ms list = list ++ ms.filterMap (pdf_page_links_get_body page) := by
  induction ms generalizing list with
  | nil => simp [pdf_page_links_get_loop]
  | cons m ms ih =>
    cases h : pdf_page_links_get_body page m with
    | none => simp [pdf_page_links_get_loop, h, ih, List.filterMap_cons]
    | some l => simp [pdf_page_links_get_loop, h, ih, List.filterMap_cons]

theorem links_body_isSome (page : zathura_page_t α) (m : PopplerLinkMapping α) :
    (pdf_page_links_get_body page m).isSome = supported_action_type m.action.type := by
  unfold pdf_page_links_get_body supported_action_type
  cases h : m.action.type <;> simp
  split
  · split <;> simp
  · simp

theorem links_body_position (page : zathura_page_t α) (m : PopplerLinkMapping α)
    (l : zathura_link_t α) (h : pdf_page_links_get_body page m = some l) :
    l.position = normalize m.area page.height := by
  unfold pdf_page_links_get_body at h
  cases ht : m.action.type <;> simp [ht] at h
  · split at h
    · split at h <;> (simp at h; subst h; rfl)
    · simp at h; subst h; rfl
  · subst h; rfl

theorem links_get_eq (host : Host) (page : zathura_page_t α) (poppler_page : PopplerPage α)
    (error : Option zathura_error_t) (hmap : poppler_page.link_mapping ≠ [])
    (hlist : host.girara_list_new_succeeds = true) :
    pdf_page_links_get host (some page) (some poppler_page) error =
      (some (poppler_page.link_mapping.reverse.filterMap (pdf_page_links_get_body page)), error) := by
  cases hm : poppler_page.link_mapping with
  | nil => exact absurd hm hmap
  | cons m ms =>
    simp [pdf_page_links_get, hm, hlist, links_loop_eq]

end CoordinateLemmas

section SearchLemmas

variable {α : Type} [Sub α]

theorem search_loop_eq (page : zathura_page_t α) (rs : List (Option (PopplerRectangle α)))
    (list : List (zathura_rectangle_t α)) :
    pdf_page_search_text_loop page rs list =
      list ++ ((rs.takeWhile Option.isSome).filterMap id).map
        (fun r => normalize r page.height) := by
  induction rs generalizing list with
  | nil => simp [pdf_page_search_text_loop]
  | cons r rs ih =>
    cases r with
    | none => simp [pdf_page_search_text_loop, List.takeWhile_cons]
    | some r =>
      simp [pdf_page_search_text_loop, List.takeWhile_cons, ih, List.filterMap_cons, normalize]

theorem links_positions (page : zathura_page_t α) (ms : List (PopplerLinkMapping α)) :
    (ms.filterMap (pdf_page_links_get_body page)).map (fun l => l.position) =
      (ms.filter (fun m => supported_action_type m.action.type)).map
        (fun m => normalize m.area page.height) := by
  induction ms with
  | nil => simp
  | cons m ms ih =>
    have hs := links_body_isSome page m
    cases h : pdf_page_links_get_body page m with
    | none =>
      rw [h] at hs
      have hp : supported_action_type m.action.type = false := by simpa using hs.symm
      simp [List.filterMap_cons, h, List.filter_cons, hp, ih]
    | some l =>
      rw [h] at hs
      have hp : supported_action_type m.action.type = true := by simpa using hs.symm
      simp [List.filterMap_cons, h, List.filter_cons, hp, ih, links_body_position page m l h]

end SearchLemmas

theorem girara_node_append_eq (root node : girara_tree_node_t) :
    girara_node_append root node = girara_tree_node_t.mk root.data (root.children ++ [node]) := by
  cases root; rfl

theorem build_index_body_eq (host : Host) (poppler_document : Option PopplerDocument)
    (root : girara_tree_node_t) (item : PopplerIndexItem) :
    build_index_body host poppler_document root item =
      girara_tree_node_t.mk root.data (root.children ++
        (build_index_body host poppler_document (girara_tree_node_t.mk none []) item).children) := by
  cases root with
  | mk data children =>
  cases item with
  | mk action child =>
    cases action with
    | none => simp [build_index_body, girara_tree_node_t.children, girara_tree_node_t.data]
    | some action =>
      simp only [build_index_body]
      cases host.zathura_index_element_new (host.g_markup_escape_text action.title) with
      | none => simp [girara_tree_node_t.children, girara_tree_node_t.data]
      | some e =>
        simp only []
        split
        · simp [girara_node_append_eq, girara_tree_node_t.children, girara_tree_node_t.data]
        · split
          · simp [girara_node_append_eq, girara_tree_node_t.children, girara_tree_node_t.data]
          · simp [girara_tree_node_t.children, girara_tree_node_t.data]

theorem build_index_eq (host : Host) (pd : PopplerDocument)
    (root : girara_tree_node_t) (iter : List PopplerIndexItem) :
    build_index host (some pd) root iter =
      girara_tree_node_t.mk root.data (root.children ++
        iter.flatMap (fun item =>
          (build_index_body host (some pd) (girara_tree_node_t.mk none []) item).children)) := by
  induction iter generalizing root with
  | nil => cases root; simp [build_index, girara_tree_node_t.children, girara_tree_node_t.data]
  | cons item iter ih =>
    rw [build_index, ih, build_index_body_eq]
    simp [girara_tree_node_t.children, girara_tree_node_t.data, List.flatMap_cons]
theorem build_index_none (host : Host) (root : girara_tree_node_t) (iter : List PopplerIndexItem) :
    build_index host none root iter = root := by
  cases iter <;> simp [build_index]

theorem build_index_append (host : Host) (poppler_document : Option PopplerDocument)
    (root : girara_tree_node_t) (a b : List PopplerIndexItem) :
    build_index host poppler_document root (a ++ b) =
      build_index host poppler_document (build_index host poppler_document root a) b := by
  cases poppler_document with
  | none => simp [build_index_none]
  | some pd =>
    induction a generalizing root with
    | nil => simp [build_index]
    | cons item a ih => simp [build_index, ih]

theorem supported_action_type_iff (t : PopplerActionType) :
    supported_action_type t = true ↔ t = POPPLER_ACTION_URI ∨ t = POPPLER_ACTION_GOTO_DEST := by
  simp [supported_action_type]

mutual
theorem build_index_prune_some (host : Host) (pd : PopplerDocument)
    (root : girara_tree_node_t) : (iter : List PopplerIndexItem) →
    build_index host (some pd) root iter = build_index host (some pd) root (prune_index iter)
  | [] => by simp [prune_index]
  | item :: iter => by
    rw [prune_index, build_index_append, build_index,
      build_index_body_prune host pd root item,
      build_index_prune_some host pd _ iter]
theorem build_index_body_prune (host : Host) (pd : PopplerDocument)
    (root : girara_tree_node_t) : (item : PopplerIndexItem) →
    build_index_body host (some pd) root item = build_index host (some pd) root (prune_item item)
  | PopplerIndexItem.mk none child => by simp [prune_item, build_index, build_index_body]
  | PopplerIndexItem.mk (some action) child => by
    have ih := fun r => build_index_prune_some host pd r child
    by_cases hs : supported_action_type action.type = true
    · simp only [prune_item, hs, if_true, build_index, build_index_body]
      cases host.zathura_index_element_new (host.g_markup_escape_text action.title) with
      | none => rfl
      | some e =>
        simp only []
        split
        · rw [ih]
        · split
          · rw [ih]
          · rfl
    · have hs2 := hs
      rw [supported_action_type_iff, not_or] at hs2
      simp only [prune_item, hs, build_index, build_index_body]
      cases host.zathura_index_element_new (host.g_markup_escape_text action.title) with
      | none => rfl
      | some e => simp [hs2.1, hs2.2]
end

theorem flatMap_forall2_filter {A B : Type} (g : A → List B) (p : A → Bool)
    (hfalse : ∀ a, p a = false → g a = []) (htrue : ∀ a, p a = true → ∃ b, g a = [b])
    (l : List A) :
    List.Forall₂ (fun b a => g a = [b]) (l.flatMap g) (l.filter p) := by
  induction l with
  | nil => simp
  | cons a l ih =>
    cases hpa : p a with
    | false => simp [List.flatMap_cons, hfalse a hpa, List.filter_cons, hpa, ih]
    | true =>
      obtain ⟨b, hb⟩ := htrue a hpa
      simp [List.flatMap_cons, hb, List.filter_cons, hpa, ih]

theorem prune_item_unsupported (item : PopplerIndexItem) (h : supported_item item = false) :
    prune_item item = [] := by
  cases item with
  | mk action child =>
    cases action with
    | none => simp [prune_item]
    | some action =>
      simp only [supported_item, PopplerIndexItem.action] at h
      simp [prune_item, h]

theorem build_index_body_unsupported (host : Host) (pd : PopplerDocument)
    (root : girara_tree_node_t) (item : PopplerIndexItem) (h : supported_item item = false) :
    build_index_body host (some pd) root item = root := by
  rw [build_index_body_prune, prune_item_unsupported item h, build_index]

theorem build_index_body_supported (host : Host) (pd : PopplerDocument)
    (halloc : ∀ title, (host.zathura_index_element_new title).isSome = true)
    (item : PopplerIndexItem) (h : supported_item item = true) :
    ∃ node, build_index_body host (some pd) (girara_tree_node_t.mk none []) item =
      girara_tree_node_t.mk none [node] := by
  cases item with
  | mk action child =>
    cases action with
    | none => simp [supported_item, PopplerIndexItem.action] at h
    | some action =>
      simp only [supported_item, PopplerIndexItem.action, supported_action_type_iff] at h
      have ha := halloc (host.g_markup_escape_text action.title)
      simp only [build_index_body]
      cases hn : host.zathura_index_element_new (host.g_markup_escape_text action.title) with
      | none => rw [hn] at ha; simp at ha
      | some e =>
        simp only []
        split
        · exact ⟨_, rfl⟩
        · split
          · exact ⟨_, rfl⟩
          · rename_i h1 h2
            rcases h with h | h
            · exact absurd h h1
            · exact absurd h h2

theorem children_eq_singleton_iff (t node : girara_tree_node_t) (h : t.data = none) :
    t.children = [node] ↔ t = girara_tree_node_t.mk none [node] := by
  cases t with
  | mk data children =>
    simp only [girara_tree_node_t.data] at h
    subst h
    simp [girara_tree_node_t.children]

theorem build_index_body_data (host : Host) (pd : PopplerDocument) (root : girara_tree_node_t)
    (item : PopplerIndexItem) :
    (build_index_body host (some pd) root item).data = root.data := by
  rw [build_index_body_eq]; rfl

theorem to_unsigned_pred (pn : Int) (h1 : 1 ≤ pn) (h2 : pn ≤ 2147483647) :
    ((to_unsigned (pn - 1) : Nat) : Int) = pn - 1 := by
  unfold to_unsigned
  rw [Int.emod_eq_of_lt (by omega) (by omega)]
  exact Int.toNat_of_nonneg (by omega)

section GotoLemmas

variable {α : Type} [Sub α]

theorem links_body_goto (page : zathura_page_t α) (m : PopplerLinkMapping α)
    (h : m.action.type = POPPLER_ACTION_GOTO_DEST) :
    pdf_page_links_get_body page m =
      some { type := ZATHURA_LINK_TO_PAGE, position := normalize m.area page.height,
             target :=
              match resolved_page_num page.document.data m.action.dest with
              | some pn => zathura_link_target_t.page_number (to_unsigned (pn - 1))
              | none => zathura_link_target_t.page_number 0 } := by
  unfold pdf_page_links_get_body resolved_page_num
  simp only [h]
  split
  · cases poppler_document_find_dest page.document.data m.action.dest.named_dest <;> rfl
  · rfl

end GotoLemmas

theorem build_index_data (host : Host) (pd : PopplerDocument) (root : girara_tree_node_t)
    (iter : List PopplerIndexItem) : (build_index host (some pd) root iter).data = root.data := by
  rw [build_index_eq]; rfl

theorem build_index_body_goto (host : Host) (pd : PopplerDocument) (root : girara_tree_node_t)
    (action : PopplerAction) (child : List PopplerIndexItem) (fresh : zathura_index_element_t)
    (h : action.type = POPPLER_ACTION_GOTO_DEST)
    (hnew : host.zathura_index_element_new (host.g_markup_escape_text action.title) = some fresh) :
    build_index_body host (some pd) root (PopplerIndexItem.mk (some action) child) =
      girara_node_append root
        (build_index host (some pd)
          (girara_tree_node_t.mk
            (some { title := fresh.title, type := ZATHURA_LINK_TO_PAGE,
                    target :=
                      match resolved_page_num (some pd) action.dest with
                      | some pn => zathura_link_target_t.page_number (to_unsigned (pn - 1))
                      | none => fresh.target }) []) child) := by
  simp only [build_index_body, hnew, h, resolved_page_num]
  simp only [reduceCtorEq, if_false, if_true]
  split
  · cases poppler_document_find_dest (some pd) action.dest.named_dest <;> rfl
  · rfl

theorem resolved_page_num_eq_none (poppler_document : Option PopplerDocument) (dest : PopplerDest)
    (hnamed : dest.type = POPPLER_DEST_NAMED)
    (hfind : poppler_document_find_dest poppler_document dest.named_dest = none) :
    resolved_page_num poppler_document dest = none := by
  simp [resolved_page_num, hnamed, hfind]

theorem links_get_forall2 {α : Type} [Sub α] (host : Host) (page : zathura_page_t α)
    (poppler_page : PopplerPage α) (error : Option zathura_error_t)
    (hmap : poppler_page.link_mapping ≠ [])
    (hlist : host.girara_list_new_succeeds = true) :
    ∃ list, pdf_page_links_get host (some page) (some poppler_page) error = (some list, error) ∧
      List.Forall₂
        (fun zathura_link poppler_link =>
          pdf_page_links_get_body page poppler_link = some zathura_link)
        list
        (poppler_page.link_mapping.reverse.filter
          (fun poppler_link => supported_action_type poppler_link.action.type)) :=
  ⟨_, links_get_eq host page poppler_page error hmap hlist,
    filterMap_forall2_filter _ _ (links_body_isSome page) _⟩

theorem outline_forall2 (host : Host) (pd : PopplerDocument)
    (root : girara_tree_node_t) (iter : List PopplerIndexItem)
    (halloc : ∀ title, (host.zathura_index_element_new title).isSome = true) :
    ∃ nodes,
      build_index host (some pd) root iter =
        girara_tree_node_t.mk root.data (root.children ++ nodes) ∧
      List.Forall₂
        (fun node item =>
          build_index_body host (some pd) (girara_tree_node_t.mk none []) item =
            girara_tree_node_t.mk none [node])
        nodes (iter.filter supported_item) := by
  refine ⟨_, build_index_eq host pd root iter, ?_⟩
  have h := flatMap_forall2_filter
    (fun item =>
      (build_index_body host (some pd) (girara_tree_node_t.mk none []) item).children)
    supported_item
    (fun item hi => by
      simp only [build_index_body_unsupported host pd _ item hi, girara_tree_node_t.children])
    (fun item hi => by
      obtain ⟨node, hn⟩ := build_index_body_supported host pd halloc item hi
      exact ⟨node, by simp only [hn, girara_tree_node_t.children]⟩)
    iter
  refine List.Forall₂.imp ?_ h
  intro node item hni
  exact (children_eq_singleton_iff _ node
    (build_index_body_data host pd (girara_tree_node_t.mk none []) item)).mp hni

theorem outline_node_goto (host : Host) (pd : PopplerDocument)
    (halloc : ∀ title, (host.zathura_index_element_new title).isSome = true)
    (node : girara_tree_node_t) (item : PopplerIndexItem) (action : PopplerAction)
    (hbody : build_index_body host (some pd) (girara_tree_node_t.mk none []) item =
      girara_tree_node_t.mk none [node])
    (hitem : item.action = some action) (h : action.type = POPPLER_ACTION_GOTO_DEST) :
    ∃ fresh, host.zathura_index_element_new (host.g_markup_escape_text action.title) = some fresh ∧
      node.data = some { title := fresh.title, type := ZATHURA_LINK_TO_PAGE,
                         target :=
                          match resolved_page_num (some pd) action.dest with
                          | some pn => zathura_link_target_t.page_number (to_unsigned (pn - 1))
                          | none => fresh.target } := by
  cases item with
  | mk a child =>
    simp only [PopplerIndexItem.action] at hitem
    subst hitem
    have ha := halloc (host.g_markup_escape_text action.title)
    cases hn : host.zathura_index_element_new (host.g_markup_escape_text action.title) with
    | none => rw [hn] at ha; simp at ha
    | some fresh =>
      refine ⟨fresh, rfl, ?_⟩
      rw [build_index_body_goto host pd _ action child fresh h hn] at hbody
      simp only [girara_node_append, List.nil_append, girara_tree_node_t.mk.injEq, true_and,
        List.cons.injEq, and_true] at hbody
      rw [← hbody, build_index_data]
      rfl


theorem open_uri_none (host : Host) (indet : Option PopplerDocument)
    (document : zathura_document_t) (huri : host.g_filename_to_uri document.path = none) :
    (pdf_document_open host indet (some document)).1 = ZATHURA_ERROR_UNKNOWN := by
  cases indet <;> simp only [pdf_document_open, huri]

theorem open_native_fail_plain (host : Host) (indet : Option PopplerDocument)
    (document : zathura_document_t) (file_uri : String)
    (huri : host.g_filename_to_uri document.path = some file_uri)
    (hopen : host.poppler_document_new_from_file file_uri document.password = (none, none)) :
    pdf_document_open host indet (some document) = (ZATHURA_ERROR_UNKNOWN, some document) := by
  simp only [pdf_document_open, huri, hopen]

theorem open_native_fail_gerror (host : Host) (indet : Option PopplerDocument)
    (document : zathura_document_t) (file_uri : String) (g : GError)
    (huri : host.g_filename_to_uri document.path = some file_uri)
    (hopen : host.poppler_document_new_from_file file_uri document.password = (none, some g)) :
    pdf_document_open host indet (some document) =
      (if g.code = POPPLER_ERROR_ENCRYPTED then ZATHURA_ERROR_INVALID_PASSWORD
        else ZATHURA_ERROR_UNKNOWN, some document) := by
  simp only [pdf_document_open, huri, hopen]
  split <;> rfl

theorem open_native_ok (host : Host) (indet : Option PopplerDocument)
    (document : zathura_document_t) (file_uri : String) (pd : PopplerDocument)
    (gerror : Option GError)
    (huri : host.g_filename_to_uri document.path = some file_uri)
    (hopen : host.poppler_document_new_from_file file_uri document.password = (some pd, gerror)) :
    pdf_document_open host indet (some document) =
      (ZATHURA_ERROR_OK,
        some { path := document.path, password := document.password, data := some pd,
               number_of_pages := to_unsigned pd.n_pages }) := by
  simp only [pdf_document_open, huri, hopen]

theorem images_loop_eq {α : Type} (ms : List (PopplerImageMapping α))
    (list : List (zathura_image_t α)) :
    pdf_page_images_get_loop ms list =
      list ++ ms.map (fun m =>
        ({ position := { x1 := m.area.x1, y1 := m.area.y1, x2 := m.area.x2, y2 := m.area.y2 },
           data := some m.image_id } : zathura_image_t α)) := by
  induction ms generalizing list with
  | nil => simp [pdf_page_images_get_loop]
  | cons m ms ih => simp [pdf_page_images_get_loop, ih]

theorem strcmp_chars_total (a b : List Char) :
    strcmp_chars a b ≤ 0 ∨ strcmp_chars b a ≤ 0 := by
  induction a generalizing b with
  | nil => cases b <;> simp [strcmp_chars]
  | cons x a ih =>
    cases b with
    | nil => simp [strcmp_chars]
    | cons y b =>
      simp only [strcmp_chars]
      by_cases h1 : x.toNat < y.toNat
      · simp [h1]
      · by_cases h2 : y.toNat < x.toNat
        · simp [h1, h2]
        · simp only [h1, h2, if_false]
          exact ih b

theorem strcmp_chars_trans (a b c : List Char) (hab : strcmp_chars a b ≤ 0)
    (hbc : strcmp_chars b c ≤ 0) : strcmp_chars a c ≤ 0 := by
  induction a generalizing b c with
  | nil => cases c <;> simp [strcmp_chars]
  | cons x a ih =>
    cases b with
    | nil => simp [strcmp_chars] at hab
    | cons y b =>
      cases c with
      | nil => simp [strcmp_chars] at hbc
      | cons z c =>
        simp only [strcmp_chars] at hab hbc ⊢
        by_cases hxy : x.toNat < y.toNat
        · by_cases hyz : y.toNat < z.toNat
          · have : x.toNat < z.toNat := by omega
            simp [this]
          · by_cases hzy : z.toNat < y.toNat
            · simp [hyz, hzy] at hbc
            · have : x.toNat < z.toNat := by omega
              simp [this]
        · by_cases hyx : y.toNat < x.toNat
          · simp [hxy, hyx] at hab
          · simp only [hxy, hyx, if_false] at hab
            by_cases hyz : y.toNat < z.toNat
            · have : x.toNat < z.toNat := by omega
              simp [this]
            · by_cases hzy : z.toNat < y.toNat
              · simp [hyz, hzy] at hbc
              · simp only [hyz, hzy, if_false] at hbc
                have h1 : ¬ x.toNat < z.toNat := by omega
                have h2 : ¬ z.toNat < x.toNat := by omega
                simp only [h1, h2, if_false]
                exact ih b c hab hbc

theorem g_strcmp0_total (a b : Option String) : g_strcmp0 a b ≤ 0 ∨ g_strcmp0 b a ≤ 0 := by
  cases a <;> cases b <;> simp [g_strcmp0]
  exact strcmp_chars_total _ _

theorem g_strcmp0_trans (a b c : Option String) (hab : g_strcmp0 a b ≤ 0)
    (hbc : g_strcmp0 b c ≤ 0) : g_strcmp0 a c ≤ 0 := by
  cases a <;> cases b <;> cases c <;> simp [g_strcmp0] at hab hbc ⊢
  exact strcmp_chars_trans _ _ _ hab hbc

theorem g_list_insert_sorted_eq (list : List (Option String)) (data : Option String) :
    g_list_insert_sorted list data =
      List.orderedInsert (fun a b => g_strcmp0 a b ≤ 0) data list := by
  induction list with
  | nil => simp [g_list_insert_sorted]
  | cons x rest ih =>
    by_cases h : g_strcmp0 data x ≤ 0
    · have h2 : ¬ g_strcmp0 data x > 0 := by omega
      simp [g_list_insert_sorted, List.orderedInsert, h, h2]
    · have h2 : g_strcmp0 data x > 0 := by omega
      simp [g_list_insert_sorted, List.orderedInsert, h, h2, ih]

theorem g_list_insert_sorted_sorted (list : List (Option String)) (data : Option String)
    (hs : List.Sorted (fun a b => g_strcmp0 a b ≤ 0) list) :
    List.Sorted (fun a b => g_strcmp0 a b ≤ 0) (g_list_insert_sorted list data) := by
  haveI : IsTotal (Option String) (fun a b => g_strcmp0 a b ≤ 0) := ⟨g_strcmp0_total⟩
  haveI : IsTrans (Option String) (fun a b => g_strcmp0 a b ≤ 0) := ⟨g_strcmp0_trans⟩
  rw [g_list_insert_sorted_eq]
  exact List.Sorted.orderedInsert data list hs

theorem g_list_insert_sorted_perm (list : List (Option String)) (data : Option String) :
    List.Perm (g_list_insert_sorted list data) (data :: list) := by
  rw [g_list_insert_sorted_eq]
  exact List.perm_orderedInsert _ data list

theorem attachments_loop_sorted (attachments : List PopplerAttachment)
    (res : List (Option String)) (hs : List.Sorted (fun a b => g_strcmp0 a b ≤ 0) res) :
    List.Sorted (fun a b => g_strcmp0 a b ≤ 0)
      (pdf_document_attachments_get_loop attachments res) := by
  induction attachments generalizing res with
  | nil => exact hs
  | cons a attachments ih =>
    simp only [pdf_document_attachments_get_loop, girara_list_append_sorted]
    exact ih _ (g_list_insert_sorted_sorted res a.name hs)

theorem attachments_loop_perm (attachments : List PopplerAttachment)
    (res : List (Option String)) :
    List.Perm (pdf_document_attachments_get_loop attachments res)
      (res ++ attachments.map (fun attachment => attachment.name)) := by
  induction attachments generalizing res with
  | nil => simp [pdf_document_attachments_get_loop]
  | cons a attachments ih =>
    simp only [pdf_document_attachments_get_loop, girara_list_append_sorted, List.map_cons]
    refine (ih _).trans ?_
    refine (List.Perm.append_right _ (g_list_insert_sorted_perm res a.name)).trans ?_
    simp only [List.cons_append]
    exact List.perm_middle.symm

theorem init_clear_cycle_counts {α : Type} (native : PopplerPages α)
    (page : zathura_page_full_t α) :
    0 ≤ (init_clear_cycle native page 0).1 ∧ (init_clear_cycle native page 0).1 ≤ 1 ∧
      (init_clear_cycle native page 0).2.1 = 0 := by
  cases hd : page.document.data with
  | none => simp [init_clear_cycle, pdf_page_init, hd, pdf_page_clear]
  | some pd =>
    cases hp : native.poppler_document_get_page pd (unsigned_to_int page.index) with
    | none => simp [init_clear_cycle, pdf_page_init, hd, hp, pdf_page_clear]
    | some pp => simp [init_clear_cycle, pdf_page_init, hd, hp, pdf_page_clear]

theorem init_clear_cycles_counts {α : Type} (native : PopplerPages α) (n : Nat)
    (page : zathura_page_full_t α) :
    ∀ counts ∈ init_clear_cycles native n page 0,
      0 ≤ counts.1 ∧ counts.1 ≤ 1 ∧ counts.2 = 0 := by
  induction n generalizing page with
  | zero => intro c hc; simp [init_clear_cycles] at hc
  | succ n ih =>
    intro c hc
    have h := init_clear_cycle_counts native page
    simp only [init_clear_cycles, List.mem_cons] at hc
    rcases hc with hc | hc
    · subst hc
      exact h
    · rw [h.2.2] at hc
      exact ih _ c hc

theorem init_clear_cycles_length {α : Type} (native : PopplerPages α) (n : Nat)
    (page : zathura_page_full_t α) (live : Int) :
    (init_clear_cycles native n page live).length = n := by
  induction n generalizing page live with
  | zero => rfl
  | succ n ih => simp [init_clear_cycles, ih]

theorem build_index_body_uri (host : Host) (pd : PopplerDocument) (root : girara_tree_node_t)
    (action : PopplerAction) (child : List PopplerIndexItem) (fresh : zathura_index_element_t)
    (h : action.type = POPPLER_ACTION_URI)
    (hnew : host.zathura_index_element_new (host.g_markup_escape_text action.title) = some fresh) :
    build_index_body host (some pd) root (PopplerIndexItem.mk (some action) child) =
      girara_node_append root
        (build_index host (some pd)
          (girara_tree_node_t.mk
            (some { title := fresh.title, type := ZATHURA_LINK_EXTERNAL,
                    target := zathura_link_target_t.uri action.uri }) []) child) := by
  simp only [build_index_body, hnew, h, if_true]

mutual
theorem build_index_outline (host : Host) (pd : PopplerDocument) (root : girara_tree_node_t) :
    (iter : List PopplerIndexItem) →
    build_index host (some pd) root iter =
      girara_tree_node_t.mk root.data (root.children ++ outline_nodes host pd iter)
  | [] => by cases root; simp [build_index, outline_nodes, girara_tree_node_t.data,
      girara_tree_node_t.children]
  | item :: iter => by
    rw [build_index, build_index_outline host pd _ iter,
      build_index_body_outline host pd root item]
    simp [outline_nodes, girara_tree_node_t.data, girara_tree_node_t.children]
theorem build_index_body_outline (host : Host) (pd : PopplerDocument)
    (root : girara_tree_node_t) : (item : PopplerIndexItem) →
    build_index_body host (some pd) root item =
      girara_tree_node_t.mk root.data (root.children ++ outline_node host pd item)
  | PopplerIndexItem.mk none child => by
    cases root; simp [build_index_body, outline_node, girara_tree_node_t.data,
      girara_tree_node_t.children]
  | PopplerIndexItem.mk (some action) child => by
    have ih := fun r => build_index_outline host pd r child
    by_cases hs : supported_action_type action.type = true
    · cases hn : host.zathura_index_element_new (host.g_markup_escape_text action.title) with
      | none =>
        cases root
        simp [build_index_body, outline_node, hn, hs, girara_tree_node_t.data,
          girara_tree_node_t.children]
      | some fresh =>
        rcases (supported_action_type_iff _).mp hs with hu | hg
        · rw [build_index_body_uri host pd root action child fresh hu hn, ih,
            girara_node_append_eq]
          simp [outline_node, hn, outline_element, hu, supported_action_type,
            girara_tree_node_t.data, girara_tree_node_t.children]
        · rw [build_index_body_goto host pd root action child fresh hg hn, ih,
            girara_node_append_eq]
          simp [outline_node, hn, outline_element, hg, supported_action_type,
            girara_tree_node_t.data, girara_tree_node_t.children]
    · have hroot := build_index_body_unsupported host pd root
        (PopplerIndexItem.mk (some action) child)
        (by simpa [supported_item, PopplerIndexItem.action] using hs)
      rw [hroot]
      cases root
      simp [outline_node, hs, girara_tree_node_t.data, girara_tree_node_t.children]
end

theorem outline_nodes_forall2 (host : Host) (pd : PopplerDocument)
    (halloc : ∀ title, (host.zathura_index_element_new title).isSome = true)
    (iter : List PopplerIndexItem) :
    List.Forall₂
      (fun node item =>
        ∃ action fresh, item.action = some action ∧
          host.zathura_index_element_new (host.g_markup_escape_text action.title) = some fresh ∧
          node = girara_tree_node_t.mk (some (outline_element pd action fresh))
            (outline_nodes host pd item.child))
      (outline_nodes host pd iter) (iter.filter supported_item) := by
  induction iter with
  | nil => simp [outline_nodes]
  | cons item iter ih =>
    cases item with
    | mk action child =>
      cases action with
      | none =>
        simpa [outline_nodes, outline_node, List.filter_cons, supported_item,
          PopplerIndexItem.action] using ih
      | some action =>
        by_cases hs : supported_action_type action.type = true
        · have ha := halloc (host.g_markup_escape_text action.title)
          cases hn : host.zathura_index_element_new (host.g_markup_escape_text action.title) with
          | none => rw [hn] at ha; simp at ha
          | some fresh =>
            simp only [outline_nodes, outline_node, hs, if_true, hn, List.filter_cons,
              supported_item, PopplerIndexItem.action, List.singleton_append]
            exact List.Forall₂.cons ⟨action, fresh, rfl, hn, rfl⟩ ih
        · simpa [outline_nodes, outline_node, hs, List.filter_cons, supported_item,
            PopplerIndexItem.action] using ih
/-! ## The claims -/

section LinkClaims

variable {α : Type} [Sub α]

/-- C1: with a non-empty native link mapping (and a list that could be
allocated) `pdf_page_links_get` returns a list that corresponds, entry by
entry and in the same order, to the native mapping reversed and then
restricted to the entries whose action type is URI or GOTO_DEST: each returned
link is the link built from the native entry at the same position. -/
theorem links_reverse_native_order (host : Host) (page : zathura_page_t α)
    (poppler_page : PopplerPage α) (error : Option zathura_error_t)
    (hmap : poppler_page.link_mapping ≠ [])
    (hlist : host.girara_list_new_succeeds = true) :
    ∃ list, pdf_page_links_get host (some page) (some poppler_page) error = (some list, error) ∧
      List.Forall₂
        (fun zathura_link poppler_link =>
          pdf_page_links_get_body page poppler_link = some zathura_link)
        list
        (poppler_page.link_mapping.reverse.filter
          (fun poppler_link => supported_action_type poppler_link.action.type)) :=
  links_get_forall2 host page poppler_page error hmap hlist

/-- Witness of C1 on the mapping `[L3, LX, L2, L1]`: the returned list holds
the links of `L1`, `L2`, `L3`, in this order. -/
theorem links_reverse_native_order_witness :
    ppage0.link_mapping ≠ [] ∧ host0.girara_list_new_succeeds = true ∧
    (∃ list, pdf_page_links_get host0 (some page0) (some ppage0) none = (some list, none) ∧
      List.Forall₂
        (fun zathura_link poppler_link =>
          pdf_page_links_get_body page0 poppler_link = some zathura_link)
        list
        (ppage0.link_mapping.reverse.filter
          (fun poppler_link => supported_action_type poppler_link.action.type))) ∧
    ppage0.link_mapping.reverse.filter
      (fun poppler_link => supported_action_type poppler_link.action.type) = [L1, L2, L3] ∧
    pdf_page_links_get host0 (some page0) (some ppage0) none =
      (some
        [ { type := ZATHURA_LINK_TO_PAGE, position := { x1 := 1, y1 := 70, x2 := 2, y2 := 90 },
            target := zathura_link_target_t.page_number 1 },
          { type := ZATHURA_LINK_TO_PAGE, position := { x1 := 3, y1 := 55, x2 := 4, y2 := 60 },
            target := zathura_link_target_t.page_number 2 },
          { type := ZATHURA_LINK_EXTERNAL, position := { x1 := 5, y1 := 30, x2 := 6, y2 := 50 },
            target := zathura_link_target_t.uri (some "http://x") } ], none) :=
  ⟨by decide, rfl, links_reverse_native_order host0 page0 ppage0 none (by decide) rfl,
    by decide, by decide⟩

/-- C2: the rectangle stored in each link of `pdf_page_links_get` and in each
hit of `pdf_page_search_text` is `normalize` of the native rectangle on the
page height, that is `(x1, h - y2, x2, h - y1)`, applied once: the positions of
the returned links are the normalized areas of the supported entries of the
reversed mapping, and the returned hits are the normalized rectangles of the
native results (up to the first entry without data). -/
theorem rectangles_normalized_once (host : Host) (page : zathura_page_t α)
    (poppler_page : PopplerPage α) (text : String) (error : Option zathura_error_t)
    (hlist : host.girara_list_new_succeeds = true)
    (hmap : poppler_page.link_mapping ≠ [])
    (htext : text.length ≠ 0)
    (hres : poppler_page.find_text text ≠ []) :
    (∃ list, pdf_page_links_get host (some page) (some poppler_page) error = (some list, error) ∧
      list.map (fun zathura_link => zathura_link.position) =
        (poppler_page.link_mapping.reverse.filter
          (fun poppler_link => supported_action_type poppler_link.action.type)).map
          (fun poppler_link =>
            ({ x1 := poppler_link.area.x1, y1 := page.height - poppler_link.area.y2,
               x2 := poppler_link.area.x2, y2 := page.height - poppler_link.area.y1 } :
              zathura_rectangle_t α))) ∧
    (∃ list, pdf_page_search_text host (some page) (some poppler_page) (some text) error =
        (some list, error) ∧
      list = (((poppler_page.find_text text).takeWhile Option.isSome).filterMap id).map
        (fun r =>
          ({ x1 := r.x1, y1 := page.height - r.y2, x2 := r.x2, y2 := page.height - r.y1 } :
            zathura_rectangle_t α))) := by
  refine ⟨⟨_, links_get_eq host page poppler_page error hmap hlist, ?_⟩, ?_⟩
  · exact links_positions page _
  · refine ⟨_, ?_, rfl⟩
    cases hr : poppler_page.find_text text with
    | nil => exact absurd hr hres
    | cons r rs =>
      have h := search_loop_eq page (r :: rs) []
      simp only [List.nil_append] at h
      simp [pdf_page_search_text, htext, hr, hlist, h, normalize]

/-- Witness of C2 on the page `ppage0` of height 100 and the text `ab`. -/
theorem rectangles_normalized_once_witness :
    host0.girara_list_new_succeeds = true ∧ ppage0.link_mapping ≠ [] ∧
    ("ab" : String).length ≠ 0 ∧ ppage0.find_text "ab" ≠ [] ∧
    (∃ list, pdf_page_links_get host0 (some page0) (some ppage0) none = (some list, none) ∧
      list.map (fun zathura_link => zathura_link.position) =
        (ppage0.link_mapping.reverse.filter
          (fun poppler_link => supported_action_type poppler_link.action.type)).map
          (fun poppler_link =>
            ({ x1 := poppler_link.area.x1, y1 := page0.height - poppler_link.area.y2,
               x2 := poppler_link.area.x2, y2 := page0.height - poppler_link.area.y1 } :
              zathura_rectangle_t Int))) ∧
    (∃ list, pdf_page_search_text host0 (some page0) (some ppage0) (some "ab") none =
        (some list, none) ∧
      list = (((ppage0.find_text "ab").takeWhile Option.isSome).filterMap id).map
        (fun r =>
          ({ x1 := r.x1, y1 := page0.height - r.y2, x2 := r.x2, y2 := page0.height - r.y1 } :
            zathura_rectangle_t Int))) :=
  ⟨rfl, by decide, by decide, by decide,
    rectangles_normalized_once host0 page0 ppage0 "ab" none rfl (by decide) (by decide)
      (by decide)⟩

/-- C10: with a non-null page, a non-null native page and a list that could
be allocated, `pdf_page_links_get` returns no list exactly when the native
link mapping is empty, and it then stores `ZATHURA_ERROR_UNKNOWN` through a
non-null `error`; a non-empty mapping without any supported entry yields the
empty list and leaves `*error` as it was. -/
theorem links_fail_iff_mapping_empty (host : Host) (page : zathura_page_t α)
    (poppler_page : PopplerPage α) (error : Option zathura_error_t)
    (hlist : host.girara_list_new_succeeds = true) :
    ((pdf_page_links_get host (some page) (some poppler_page) error).1 = none ↔
      poppler_page.link_mapping = []) ∧
    (poppler_page.link_mapping = [] →
      (pdf_page_links_get host (some page) (some poppler_page) error).2 =
        error.map (fun _ => ZATHURA_ERROR_UNKNOWN)) ∧
    (poppler_page.link_mapping ≠ [] →
      (∀ poppler_link ∈ poppler_page.link_mapping,
        supported_action_type poppler_link.action.type = false) →
      pdf_page_links_get host (some page) (some poppler_page) error = (some [], error)) := by
  refine ⟨⟨?_, ?_⟩, ?_, ?_⟩
  · intro h
    by_contra hne
    rw [links_get_eq host page poppler_page error hne hlist] at h
    simp at h
  · intro h
    simp [pdf_page_links_get, h]
  · intro h
    cases error <;> simp [pdf_page_links_get, h, set_error]
  · intro hne hall
    rw [links_get_eq host page poppler_page error hne hlist]
    have : poppler_page.link_mapping.reverse.filterMap (pdf_page_links_get_body page) = [] := by
      rw [List.filterMap_eq_nil_iff]
      intro m hm
      have hs := links_body_isSome page m
      rw [hall m (List.mem_reverse.mp hm)] at hs
      cases hb : pdf_page_links_get_body page m with
      | none => rfl
      | some l => rw [hb] at hs; simp at hs
    rw [this]

/-- Witness of C10 on the mapping `[LX]`, whose only entry is a launch link:
the call succeeds with the empty list. -/
theorem links_fail_iff_mapping_empty_witness :
    host0.girara_list_new_succeeds = true ∧ ppage_launch.link_mapping ≠ [] ∧
    (∀ poppler_link ∈ ppage_launch.link_mapping,
      supported_action_type poppler_link.action.type = false) ∧
    ((pdf_page_links_get host0 (some page0) (some ppage_launch)
        (some ZATHURA_ERROR_OK)).1 = none ↔ ppage_launch.link_mapping = []) ∧
    pdf_page_links_get host0 (some page0) (some ppage_launch) (some ZATHURA_ERROR_OK) =
      (some [], some ZATHURA_ERROR_OK) :=
  ⟨rfl, by decide, by decide,
    (links_fail_iff_mapping_empty host0 page0 ppage_launch (some ZATHURA_ERROR_OK) rfl).1,
    (links_fail_iff_mapping_empty host0 page0 ppage_launch (some ZATHURA_ERROR_OK) rfl).2.2
      (by decide) (by decide)⟩

end LinkClaims

/-- C3: for every sibling sequence `iter` of the native outline and every
parent `root` (top level or nested), `build_index` appends to the children of
`root` exactly the outline nodes of `iter`: one node per entry whose action
type is URI or GOTO_DEST, in document order, whose payload is the element
built for the entry and whose children are, in turn, the outline nodes of the
child sequence of the entry, so that every nested sequence is appended to the
node of its parent entry.  An entry of any other action type yields no node,
its subtree is not visited, and the entries after it are still processed: the
result is the one obtained from the outline in which every such entry is
deleted together with its subtree, at every depth.  The allocation of outline
elements is taken to succeed. -/
theorem outline_keeps_supported_in_order (host : Host) (pd : PopplerDocument)
    (root : girara_tree_node_t) (iter : List PopplerIndexItem)
    (halloc : ∀ title, (host.zathura_index_element_new title).isSome = true) :
    (∃ nodes,
      build_index host (some pd) root iter =
        girara_tree_node_t.mk root.data (root.children ++ nodes) ∧
      List.Forall₂
        (fun node item =>
          build_index_body host (some pd) (girara_tree_node_t.mk none []) item =
            girara_tree_node_t.mk none [node])
        nodes (iter.filter supported_item)) ∧
    build_index host (some pd) root iter = build_index host (some pd) root (prune_index iter) ∧
    build_index host (some pd) root iter =
      girara_tree_node_t.mk root.data (root.children ++ outline_nodes host pd iter) ∧
    List.Forall₂
      (fun node item =>
        ∃ action fresh, item.action = some action ∧
          host.zathura_index_element_new (host.g_markup_escape_text action.title) = some fresh ∧
          node = girara_tree_node_t.mk (some (outline_element pd action fresh))
            (outline_nodes host pd item.child))
      (outline_nodes host pd iter) (iter.filter supported_item) :=
  ⟨outline_forall2 host pd root iter halloc, build_index_prune_some host pd root iter,
    build_index_outline host pd root iter, outline_nodes_forall2 host pd halloc iter⟩

/-- Witness of C3 on the nested outline of `pdoc_nested`: `A(uri)` with the
child `A1(dest to page 1)`, which has the child `A2(uri)`; `B(dest to page
2)`; `C(launch)` with the child `D(uri)`.  The root gets exactly the two
children `A` and `B`, in this order; `A1` is the child of `A` and `A2` the
child of `A1`; neither `C` nor `D` occurs.  The flat outline `[A, B, C]` of
`pdoc0` gives the two children `A` and `B`. -/
theorem outline_keeps_supported_in_order_witness :
    (∀ title, (host0.zathura_index_element_new title).isSome = true) ∧
    ((∃ nodes,
      build_index host0 (some pdoc_nested) (girara_tree_node_t.mk none [])
          pdoc_nested.index_iter =
        girara_tree_node_t.mk (girara_tree_node_t.mk none []).data
          ((girara_tree_node_t.mk none []).children ++ nodes) ∧
      List.Forall₂
        (fun node item =>
          build_index_body host0 (some pdoc_nested) (girara_tree_node_t.mk none []) item =
            girara_tree_node_t.mk none [node])
        nodes (pdoc_nested.index_iter.filter supported_item)) ∧
    build_index host0 (some pdoc_nested) (girara_tree_node_t.mk none [])
        pdoc_nested.index_iter =
      build_index host0 (some pdoc_nested) (girara_tree_node_t.mk none [])
        (prune_index pdoc_nested.index_iter) ∧
    build_index host0 (some pdoc_nested) (girara_tree_node_t.mk none [])
        pdoc_nested.index_iter =
      girara_tree_node_t.mk (girara_tree_node_t.mk none []).data
        ((girara_tree_node_t.mk none []).children ++
          outline_nodes host0 pdoc_nested pdoc_nested.index_iter) ∧
    List.Forall₂
      (fun node item =>
        ∃ action fresh, item.action = some action ∧
          host0.zathura_index_element_new (host0.g_markup_escape_text action.title) =
            some fresh ∧
          node = girara_tree_node_t.mk (some (outline_element pdoc_nested action fresh))
            (outline_nodes host0 pdoc_nested item.child))
      (outline_nodes host0 pdoc_nested pdoc_nested.index_iter)
      (pdoc_nested.index_iter.filter supported_item)) ∧
    pdf_document_index_generate host0 (some zdoc0) (some pdoc_nested) none =
      (some (girara_tree_node_t.mk
        (some { title := "ROOT", type := ZATHURA_LINK_INVALID,
                target := zathura_link_target_t.page_number 0 })
        [ girara_tree_node_t.mk
            (some { title := "A", type := ZATHURA_LINK_EXTERNAL,
                    target := zathura_link_target_t.uri (some "http://a") })
            [ girara_tree_node_t.mk
                (some { title := "A1", type := ZATHURA_LINK_TO_PAGE,
                        target := zathura_link_target_t.page_number 0 })
                [ girara_tree_node_t.mk
                    (some { title := "A2", type := ZATHURA_LINK_EXTERNAL,
                            target := zathura_link_target_t.uri (some "http://a2") }) [] ] ],
          girara_tree_node_t.mk
            (some { title := "B", type := ZATHURA_LINK_TO_PAGE,
                    target := zathura_link_target_t.page_number 1 }) [] ]), none) ∧
    pdf_document_index_generate host0 (some zdoc0) (some pdoc0) none =
      (some (girara_tree_node_t.mk
        (some { title := "ROOT", type := ZATHURA_LINK_INVALID,
                target := zathura_link_target_t.page_number 0 })
        [ girara_tree_node_t.mk
            (some { title := "A", type := ZATHURA_LINK_EXTERNAL,
                    target := zathura_link_target_t.uri (some "http://a") }) [],
          girara_tree_node_t.mk
            (some { title := "B", type := ZATHURA_LINK_TO_PAGE,
                    target := zathura_link_target_t.page_number 1 }) [] ]), none) :=
  ⟨fun _ => rfl,
    outline_keeps_supported_in_order host0 pdoc_nested (girara_tree_node_t.mk none [])
      pdoc_nested.index_iter (fun _ => rfl),
    rfl, rfl⟩

section DestinationClaims

variable {α : Type} [Sub α]

/-- C4, counterexample: the mapping `[LN, L3]`, where `LN` jumps to a named
destination that the document does not have, yields two links, the second one
built for `LN` with the page number 0; the outline `[N, A]`, where `N` has the
same destination, yields two nodes, the first one built for `N`.  The entry is
not dropped. -/
theorem unresolved_named_destination_counterexample :
    pdf_page_links_get host0 (some page0) (some ppage_missing) none =
      (some
        [ { type := ZATHURA_LINK_EXTERNAL, position := { x1 := 5, y1 := 30, x2 := 6, y2 := 50 },
            target := zathura_link_target_t.uri (some "http://x") },
          { type := ZATHURA_LINK_TO_PAGE, position := { x1 := 1, y1 := 70, x2 := 2, y2 := 90 },
            target := zathura_link_target_t.page_number 0 } ], none) ∧
    poppler_document_find_dest page0.document.data LN.action.dest.named_dest = none ∧
    build_index host0 (some pdoc0) (girara_tree_node_t.mk none []) iter_missing =
      girara_tree_node_t.mk none
        [ girara_tree_node_t.mk
            (some { title := "N", type := ZATHURA_LINK_TO_PAGE,
                    target := zathura_link_target_t.page_number 0 }) [],
          girara_tree_node_t.mk
            (some { title := "A", type := ZATHURA_LINK_EXTERNAL,
                    target := zathura_link_target_t.uri (some "http://a") }) [] ] :=
  ⟨by decide, by decide, rfl⟩

/-- C4, amended: an entry whose action is GOTO_DEST with a named destination
that the lookup does not find is kept.  In the list of `pdf_page_links_get`
the link at its position (among the supported entries of the reversed
mapping) has the type `ZATHURA_LINK_TO_PAGE`, the normalized rectangle and the
page number 0 of the initial target; among the nodes `build_index` appends, the
node at its position (among the supported entries) has the type
`ZATHURA_LINK_TO_PAGE` and the target of the fresh element.  All other
supported entries keep their positions. -/
theorem unresolved_named_destination_kept (host : Host) (page : zathura_page_t α)
    (poppler_page : PopplerPage α) (error : Option zathura_error_t)
    (pd : PopplerDocument) (root : girara_tree_node_t) (iter : List PopplerIndexItem)
    (hmap : poppler_page.link_mapping ≠ [])
    (hlist : host.girara_list_new_succeeds = true)
    (halloc : ∀ title, (host.zathura_index_element_new title).isSome = true) :
    (∃ list, pdf_page_links_get host (some page) (some poppler_page) error = (some list, error) ∧
      List.Forall₂
        (fun zathura_link poppler_link =>
          poppler_link.action.type = POPPLER_ACTION_GOTO_DEST →
          poppler_link.action.dest.type = POPPLER_DEST_NAMED →
          poppler_document_find_dest page.document.data
            poppler_link.action.dest.named_dest = none →
          zathura_link =
            { type := ZATHURA_LINK_TO_PAGE
              position :=
                { x1 := poppler_link.area.x1, y1 := page.height - poppler_link.area.y2,
                  x2 := poppler_link.area.x2, y2 := page.height - poppler_link.area.y1 }
              target := zathura_link_target_t.page_number 0 })
        list
        (poppler_page.link_mapping.reverse.filter
          (fun poppler_link => supported_action_type poppler_link.action.type))) ∧
    (∃ nodes,
      build_index host (some pd) root iter =
        girara_tree_node_t.mk root.data (root.children ++ nodes) ∧
      List.Forall₂
        (fun node item =>
          ∀ action, item.action = some action →
          action.type = POPPLER_ACTION_GOTO_DEST →
          action.dest.type = POPPLER_DEST_NAMED →
          poppler_document_find_dest (some pd) action.dest.named_dest = none →
          ∃ fresh,
            host.zathura_index_element_new (host.g_markup_escape_text action.title) =
              some fresh ∧
            node.data = some { title := fresh.title, type := ZATHURA_LINK_TO_PAGE,
                               target := fresh.target })
        nodes (iter.filter supported_item)) := by
  constructor
  · obtain ⟨list, hget, hall⟩ := links_get_forall2 host page poppler_page error hmap hlist
    refine ⟨list, hget, List.Forall₂.imp ?_ hall⟩
    intro l m hbody htype hnamed hfind
    rw [links_body_goto page m htype,
      resolved_page_num_eq_none _ _ hnamed hfind] at hbody
    simp only [Option.some.injEq] at hbody
    rw [← hbody]
    rfl
  · obtain ⟨nodes, hbuild, hall⟩ := outline_forall2 host pd root iter halloc
    refine ⟨nodes, hbuild, List.Forall₂.imp ?_ hall⟩
    intro node item hbody action hitem htype hnamed hfind
    obtain ⟨fresh, hfresh, hdata⟩ := outline_node_goto host pd halloc node item action hbody hitem htype
    rw [resolved_page_num_eq_none _ _ hnamed hfind] at hdata
    exact ⟨fresh, hfresh, hdata⟩

/-- Witness of the amended C4 on the mapping `[LN, L3]` and the outline
`[N, A]`. -/
theorem unresolved_named_destination_kept_witness :
    ppage_missing.link_mapping ≠ [] ∧ host0.girara_list_new_succeeds = true ∧
    (∀ title, (host0.zathura_index_element_new title).isSome = true) ∧
    (∃ list, pdf_page_links_get host0 (some page0) (some ppage_missing) none = (some list, none) ∧
      List.Forall₂
        (fun zathura_link poppler_link =>
          poppler_link.action.type = POPPLER_ACTION_GOTO_DEST →
          poppler_link.action.dest.type = POPPLER_DEST_NAMED →
          poppler_document_find_dest page0.document.data
            poppler_link.action.dest.named_dest = none →
          zathura_link =
            { type := ZATHURA_LINK_TO_PAGE
              position :=
                { x1 := poppler_link.area.x1, y1 := page0.height - poppler_link.area.y2,
                  x2 := poppler_link.area.x2, y2 := page0.height - poppler_link.area.y1 }
              target := zathura_link_target_t.page_number 0 })
        list
        (ppage_missing.link_mapping.reverse.filter
          (fun poppler_link => supported_action_type poppler_link.action.type))) ∧
    (∃ nodes,
      build_index host0 (some pdoc0) (girara_tree_node_t.mk none []) iter_missing =
        girara_tree_node_t.mk (girara_tree_node_t.mk none []).data
          ((girara_tree_node_t.mk none []).children ++ nodes) ∧
      List.Forall₂
        (fun node item =>
          ∀ action, item.action = some action →
          action.type = POPPLER_ACTION_GOTO_DEST →
          action.dest.type = POPPLER_DEST_NAMED →
          poppler_document_find_dest (some pdoc0) action.dest.named_dest = none →
          ∃ fresh,
            host0.zathura_index_element_new (host0.g_markup_escape_text action.title) =
              some fresh ∧
            node.data = some { title := fresh.title, type := ZATHURA_LINK_TO_PAGE,
                               target := fresh.target })
        nodes (iter_missing.filter supported_item)) :=
  ⟨by decide, rfl, fun _ => rfl,
    unresolved_named_destination_kept host0 page0 ppage_missing none pdoc0
      (girara_tree_node_t.mk none []) iter_missing (by decide) rfl (fun _ => rfl)⟩

/-- C5, counterexample: in a document of three pages, a link and an outline
entry whose explicit destination has the native page number 7 are emitted with
the page index 6, which is not below the page count 3. -/
theorem page_index_in_range_counterexample :
    pdoc0.n_pages = 3 ∧
    pdf_page_links_get host0 (some page0) (some ppage_far) none =
      (some
        [ { type := ZATHURA_LINK_TO_PAGE, position := { x1 := 1, y1 := 70, x2 := 2, y2 := 90 },
            target := zathura_link_target_t.page_number 6 } ], none) ∧
    build_index host0 (some pdoc0) (girara_tree_node_t.mk none []) iter_far =
      girara_tree_node_t.mk none
        [ girara_tree_node_t.mk
            (some { title := "F", type := ZATHURA_LINK_TO_PAGE,
                    target := zathura_link_target_t.page_number 6 }) [] ] ∧
    ¬ ((6 : Int) < pdoc0.n_pages) :=
  ⟨rfl, by decide, rfl, by decide⟩

/-- C5, amended: the page index of a link or outline node built for a
GOTO_DEST entry is not compared with the page count.  For a destination that
resolves to the native page number `pn` with `1 ≤ pn` (and `pn` an `int`), the
entry is emitted with a page index `p` such that, for every `N`, `p < N` holds
exactly when `pn ≤ N`: the index is in range when `pn ≤ N`, and an entry with
`pn > N` is emitted with an index that is not below `N`. -/
theorem page_index_unchecked (host : Host) (page : zathura_page_t α)
    (poppler_page : PopplerPage α) (error : Option zathura_error_t)
    (pd : PopplerDocument) (root : girara_tree_node_t) (iter : List PopplerIndexItem)
    (N : Int)
    (hmap : poppler_page.link_mapping ≠ [])
    (hlist : host.girara_list_new_succeeds = true)
    (halloc : ∀ title, (host.zathura_index_element_new title).isSome = true) :
    (∃ list, pdf_page_links_get host (some page) (some poppler_page) error = (some list, error) ∧
      List.Forall₂
        (fun zathura_link poppler_link =>
          poppler_link.action.type = POPPLER_ACTION_GOTO_DEST →
          ∀ pn, resolved_page_num page.document.data poppler_link.action.dest = some pn →
          1 ≤ pn → pn ≤ 2147483647 →
          ∃ p : Nat, zathura_link.type = ZATHURA_LINK_TO_PAGE ∧
            zathura_link.target = zathura_link_target_t.page_number p ∧
            ((p : Int) < N ↔ pn ≤ N))
        list
        (poppler_page.link_mapping.reverse.filter
          (fun poppler_link => supported_action_type poppler_link.action.type))) ∧
    (∃ nodes,
      build_index host (some pd) root iter =
        girara_tree_node_t.mk root.data (root.children ++ nodes) ∧
      List.Forall₂
        (fun node item =>
          ∀ action, item.action = some action →
          action.type = POPPLER_ACTION_GOTO_DEST →
          ∀ pn, resolved_page_num (some pd) action.dest = some pn →
          1 ≤ pn → pn ≤ 2147483647 →
          ∃ (p : Nat) (index_element : zathura_index_element_t),
            node.data = some index_element ∧
            index_element.type = ZATHURA_LINK_TO_PAGE ∧
            index_element.target = zathura_link_target_t.page_number p ∧
            ((p : Int) < N ↔ pn ≤ N))
        nodes (iter.filter supported_item)) := by
  constructor
  · obtain ⟨list, hget, hall⟩ := links_get_forall2 host page poppler_page error hmap hlist
    refine ⟨list, hget, List.Forall₂.imp ?_ hall⟩
    intro l m hbody htype pn hres h1 h2
    rw [links_body_goto page m htype, hres] at hbody
    simp only [Option.some.injEq] at hbody
    refine ⟨to_unsigned (pn - 1), by rw [← hbody], by rw [← hbody], ?_⟩
    rw [to_unsigned_pred pn h1 h2]
    omega
  · obtain ⟨nodes, hbuild, hall⟩ := outline_forall2 host pd root iter halloc
    refine ⟨nodes, hbuild, List.Forall₂.imp ?_ hall⟩
    intro node item hbody action hitem htype pn hres h1 h2
    obtain ⟨fresh, _, hdata⟩ := outline_node_goto host pd halloc node item action hbody hitem htype
    rw [hres] at hdata
    refine ⟨to_unsigned (pn - 1), _, hdata, rfl, rfl, ?_⟩
    rw [to_unsigned_pred pn h1 h2]
    omega

/-- Witness of the amended C5 on the mapping `[L3, LX, L2, L1]`, the outline
of `pdoc0` and the page count 3. -/
theorem page_index_unchecked_witness :
    ppage0.link_mapping ≠ [] ∧ host0.girara_list_new_succeeds = true ∧
    (∀ title, (host0.zathura_index_element_new title).isSome = true) ∧
    (∃ list, pdf_page_links_get host0 (some page0) (some ppage0) none = (some list, none) ∧
      List.Forall₂
        (fun zathura_link poppler_link =>
          poppler_link.action.type = POPPLER_ACTION_GOTO_DEST →
          ∀ pn, resolved_page_num page0.document.data poppler_link.action.dest = some pn →
          1 ≤ pn → pn ≤ 2147483647 →
          ∃ p : Nat, zathura_link.type = ZATHURA_LINK_TO_PAGE ∧
            zathura_link.target = zathura_link_target_t.page_number p ∧
            ((p : Int) < 3 ↔ pn ≤ 3))
        list
        (ppage0.link_mapping.reverse.filter
          (fun poppler_link => supported_action_type poppler_link.action.type))) ∧
    (∃ nodes,
      build_index host0 (some pdoc0) (girara_tree_node_t.mk none []) pdoc0.index_iter =
        girara_tree_node_t.mk (girara_tree_node_t.mk none []).data
          ((girara_tree_node_t.mk none []).children ++ nodes) ∧
      List.Forall₂
        (fun node item =>
          ∀ action, item.action = some action →
          action.type = POPPLER_ACTION_GOTO_DEST →
          ∀ pn, resolved_page_num (some pdoc0) action.dest = some pn →
          1 ≤ pn → pn ≤ 2147483647 →
          ∃ (p : Nat) (index_element : zathura_index_element_t),
            node.data = some index_element ∧
            index_element.type = ZATHURA_LINK_TO_PAGE ∧
            index_element.target = zathura_link_target_t.page_number p ∧
            ((p : Int) < 3 ↔ pn ≤ 3))
        nodes (pdoc0.index_iter.filter supported_item)) :=
  ⟨by decide, rfl, fun _ => rfl,
    page_index_unchecked host0 page0 ppage0 none pdoc0
      (girara_tree_node_t.mk none []) pdoc0.index_iter 3 (by decide) rfl (fun _ => rfl)⟩

/-- C6: the page index stored for a GOTO_DEST action is the native page number
minus 1, by the same rule in `pdf_page_links_get` and in `build_index`: when
the destination resolves to the native page number `pn` (the `page_num` of an
explicit destination, or of the destination found for a name), the link and
the outline node carry `pn - 1` stored as `unsigned int`, which for a one-based
`pn` is the number `pn - 1` itself. -/
theorem page_index_is_page_num_minus_one (host : Host) (page : zathura_page_t α)
    (poppler_page : PopplerPage α) (error : Option zathura_error_t)
    (pd : PopplerDocument) (root : girara_tree_node_t) (iter : List PopplerIndexItem)
    (hmap : poppler_page.link_mapping ≠ [])
    (hlist : host.girara_list_new_succeeds = true)
    (halloc : ∀ title, (host.zathura_index_element_new title).isSome = true) :
    (∃ list, pdf_page_links_get host (some page) (some poppler_page) error = (some list, error) ∧
      List.Forall₂
        (fun zathura_link poppler_link =>
          poppler_link.action.type = POPPLER_ACTION_GOTO_DEST →
          ∀ pn, resolved_page_num page.document.data poppler_link.action.dest = some pn →
          zathura_link.type = ZATHURA_LINK_TO_PAGE ∧
          zathura_link.target = zathura_link_target_t.page_number (to_unsigned (pn - 1)))
        list
        (poppler_page.link_mapping.reverse.filter
          (fun poppler_link => supported_action_type poppler_link.action.type))) ∧
    (∃ nodes,
      build_index host (some pd) root iter =
        girara_tree_node_t.mk root.data (root.children ++ nodes) ∧
      List.Forall₂
        (fun node item =>
          ∀ action, item.action = some action →
          action.type = POPPLER_ACTION_GOTO_DEST →
          ∀ pn, resolved_page_num (some pd) action.dest = some pn →
          ∃ index_element : zathura_index_element_t,
            node.data = some index_element ∧
            index_element.type = ZATHURA_LINK_TO_PAGE ∧
            index_element.target = zathura_link_target_t.page_number (to_unsigned (pn - 1)))
        nodes (iter.filter supported_item)) ∧
    (∀ dest : PopplerDest, dest.type ≠ POPPLER_DEST_NAMED →
      resolved_page_num (some pd) dest = some dest.page_num) ∧
    (∀ dest found name, dest.type = POPPLER_DEST_NAMED → dest.named_dest = some name →
      pd.find_dest name = some found →
      resolved_page_num (some pd) dest = some found.page_num) ∧
    (∀ pn : Int, 1 ≤ pn → pn ≤ 2147483647 → ((to_unsigned (pn - 1) : Nat) : Int) = pn - 1) := by
  refine ⟨?_, ?_, ?_, ?_, to_unsigned_pred⟩
  · obtain ⟨list, hget, hall⟩ := links_get_forall2 host page poppler_page error hmap hlist
    refine ⟨list, hget, List.Forall₂.imp ?_ hall⟩
    intro l m hbody htype pn hres
    rw [links_body_goto page m htype, hres] at hbody
    simp only [Option.some.injEq] at hbody
    exact ⟨by rw [← hbody], by rw [← hbody]⟩
  · obtain ⟨nodes, hbuild, hall⟩ := outline_forall2 host pd root iter halloc
    refine ⟨nodes, hbuild, List.Forall₂.imp ?_ hall⟩
    intro node item hbody action hitem htype pn hres
    obtain ⟨fresh, _, hdata⟩ := outline_node_goto host pd halloc node item action hbody hitem htype
    rw [hres] at hdata
    exact ⟨_, hdata, rfl, rfl⟩
  · intro dest hd
    simp [resolved_page_num, hd]
  · intro dest found name hd hname hfind
    simp [resolved_page_num, hd, hname, poppler_document_find_dest, hfind]

/-- Witness of C6 on the mapping `[L3, LX, L2, L1]` and the outline of
`pdoc0`. -/
theorem page_index_is_page_num_minus_one_witness :
    ppage0.link_mapping ≠ [] ∧ host0.girara_list_new_succeeds = true ∧
    (∀ title, (host0.zathura_index_element_new title).isSome = true) ∧
    ((∃ list, pdf_page_links_get host0 (some page0) (some ppage0) none = (some list, none) ∧
      List.Forall₂
        (fun zathura_link poppler_link =>
          poppler_link.action.type = POPPLER_ACTION_GOTO_DEST →
          ∀ pn, resolved_page_num page0.document.data poppler_link.action.dest = some pn →
          zathura_link.type = ZATHURA_LINK_TO_PAGE ∧
          zathura_link.target = zathura_link_target_t.page_number (to_unsigned (pn - 1)))
        list
        (ppage0.link_mapping.reverse.filter
          (fun poppler_link => supported_action_type poppler_link.action.type))) ∧
    (∃ nodes,
      build_index host0 (some pdoc0) (girara_tree_node_t.mk none []) pdoc0.index_iter =
        girara_tree_node_t.mk (girara_tree_node_t.mk none []).data
          ((girara_tree_node_t.mk none []).children ++ nodes) ∧
      List.Forall₂
        (fun node item =>
          ∀ action, item.action = some action →
          action.type = POPPLER_ACTION_GOTO_DEST →
          ∀ pn, resolved_page_num (some pdoc0) action.dest = some pn →
          ∃ index_element : zathura_index_element_t,
            node.data = some index_element ∧
            index_element.type = ZATHURA_LINK_TO_PAGE ∧
            index_element.target = zathura_link_target_t.page_number (to_unsigned (pn - 1)))
        nodes (pdoc0.index_iter.filter supported_item)) ∧
    (∀ dest : PopplerDest, dest.type ≠ POPPLER_DEST_NAMED →
      resolved_page_num (some pdoc0) dest = some dest.page_num) ∧
    (∀ dest found name, dest.type = POPPLER_DEST_NAMED → dest.named_dest = some name →
      pdoc0.find_dest name = some found →
      resolved_page_num (some pdoc0) dest = some found.page_num) ∧
    (∀ pn : Int, 1 ≤ pn → pn ≤ 2147483647 → ((to_unsigned (pn - 1) : Nat) : Int) = pn - 1)) :=
  ⟨by decide, rfl, fun _ => rfl,
    page_index_is_page_num_minus_one host0 page0 ppage0 none pdoc0
      (girara_tree_node_t.mk none []) pdoc0.index_iter (by decide) rfl (fun _ => rfl)⟩

end DestinationClaims

/-! ### Attachments and opening -/

/-- C7, counterexample: `pdoc0` has the attachments `a.txt` and `b.txt`;
saving the name `missing.txt` returns `ZATHURA_ERROR_OK`, not a failure (and
makes no native save call). -/
theorem attachment_save_unknown_name_counterexample :
    pdoc0.has_attachments = true ∧
    (∀ attachment ∈ pdoc0.attachments, attachment.name ≠ some "missing.txt") ∧
    (pdf_document_attachment_save host0 (some zdoc0) (some pdoc0) (some "missing.txt")
      (some "/tmp/out")).1 = ZATHURA_ERROR_OK :=
  ⟨rfl, by decide, by decide⟩

/-- C7, amended: for a document with attachment capability and a name that
matches none of its attachments, `pdf_document_attachment_save` makes no call
of `poppler_attachment_save` and returns `ZATHURA_ERROR_OK`. -/
theorem attachment_save_unknown_name_ok (host : Host) (document : zathura_document_t)
    (pd : PopplerDocument) (attachmentname file : Option String)
    (hcap : pd.has_attachments = true)
    (hname : ∀ attachment ∈ pd.attachments, attachment.name ≠ attachmentname) :
    pdf_document_attachment_save host (some document) (some pd) attachmentname file =
      (ZATHURA_ERROR_OK, []) := by
  have hloop : ∀ l : List PopplerAttachment, (∀ attachment ∈ l, attachment.name ≠ attachmentname) →
      pdf_document_attachment_save_loop host attachmentname file l = (ZATHURA_ERROR_OK, []) := by
    intro l
    induction l with
    | nil => intro _; rfl
    | cons a l ih =>
      intro h
      have ha : a.name ≠ attachmentname := h a (List.mem_cons_self a l)
      simp only [pdf_document_attachment_save_loop, ha, ne_eq, not_false_eq_true, if_true]
      exact ih (fun x hx => h x (List.mem_cons_of_mem a hx))
  simp only [pdf_document_attachment_save, hcap]
  exact hloop pd.attachments hname

/-- Witness of the amended C7 on `pdoc0` and the name `missing.txt`. -/
theorem attachment_save_unknown_name_ok_witness :
    pdoc0.has_attachments = true ∧
    (∀ attachment ∈ pdoc0.attachments, attachment.name ≠ some "missing.txt") ∧
    pdf_document_attachment_save host0 (some zdoc0) (some pdoc0) (some "missing.txt")
      (some "/tmp/out") = (ZATHURA_ERROR_OK, []) :=
  ⟨rfl, by decide,
    attachment_save_unknown_name_ok host0 zdoc0 pdoc0 (some "missing.txt") (some "/tmp/out") rfl
      (by decide)⟩


/-- C8: for a non-null document, `pdf_document_open` returns
`ZATHURA_ERROR_INVALID_PASSWORD` exactly when the native open is reached (the
path was converted to a URI), fails, and reports an error whose code is
`POPPLER_ERROR_ENCRYPTED`; it returns `ZATHURA_ERROR_UNKNOWN` for every other
failure of the native open; it returns `ZATHURA_ERROR_OK` exactly when the
native open is reached and succeeds, and then the document holds the native
handle and the page count of the native document. -/
theorem open_error_codes (host : Host) (poppler_document_indeterminate : Option PopplerDocument)
    (document : zathura_document_t) :
    ((pdf_document_open host poppler_document_indeterminate (some document)).1 =
        ZATHURA_ERROR_INVALID_PASSWORD ↔
      ∃ file_uri g, host.g_filename_to_uri document.path = some file_uri ∧
        host.poppler_document_new_from_file file_uri document.password = (none, some g) ∧
        g.code = POPPLER_ERROR_ENCRYPTED) ∧
    (∀ file_uri gerror, host.g_filename_to_uri document.path = some file_uri →
      host.poppler_document_new_from_file file_uri document.password = (none, gerror) →
      (∀ g, gerror = some g → g.code ≠ POPPLER_ERROR_ENCRYPTED) →
      pdf_document_open host poppler_document_indeterminate (some document) =
        (ZATHURA_ERROR_UNKNOWN, some document)) ∧
    ((pdf_document_open host poppler_document_indeterminate (some document)).1 =
        ZATHURA_ERROR_OK ↔
      ∃ file_uri poppler_document gerror,
        host.g_filename_to_uri document.path = some file_uri ∧
        host.poppler_document_new_from_file file_uri document.password =
          (some poppler_document, gerror)) ∧
    (∀ file_uri poppler_document gerror,
      host.g_filename_to_uri document.path = some file_uri →
      host.poppler_document_new_from_file file_uri document.password =
        (some poppler_document, gerror) →
      pdf_document_open host poppler_document_indeterminate (some document) =
        (ZATHURA_ERROR_OK,
          some { path := document.path, password := document.password,
                 data := some poppler_document,
                 number_of_pages := to_unsigned poppler_document.n_pages })) := by
  cases huri : host.g_filename_to_uri document.path with
  | none =>
    have h1 := open_uri_none host poppler_document_indeterminate document huri
    refine ⟨?_, ?_, ?_, ?_⟩
    · simp [h1]
    · intro file_uri gerror h; simp at h
    · simp [h1]
    · intro file_uri pdoc gerror h; simp at h
  | some file_uri =>
    simp only [Option.some.injEq]
    rcases hopen : host.poppler_document_new_from_file file_uri document.password with
      ⟨pdoc, gerror⟩
    cases pdoc with
    | none =>
      cases gerror with
      | none =>
        have h1 := open_native_fail_plain host poppler_document_indeterminate document
          file_uri huri hopen
        refine ⟨?_, ?_, ?_, ?_⟩
        · simp [h1, hopen]
        · intro u ge hu ho _; exact h1
        · simp [h1, hopen]
        · intro u pdoc ge hu ho; subst hu; rw [hopen] at ho; simp at ho
      | some g =>
        have h1 := open_native_fail_gerror host poppler_document_indeterminate document
          file_uri g huri hopen
        by_cases hg : g.code = POPPLER_ERROR_ENCRYPTED
        · refine ⟨?_, ?_, ?_, ?_⟩
          · simp [h1, hopen, hg]
          · intro u ge hu ho hne
            subst hu
            rw [hopen] at ho
            simp only [Prod.mk.injEq, true_and] at ho
            exact absurd hg (hne g ho.symm)
          · simp [h1, hopen, hg]
          · intro u pdoc ge hu ho; subst hu; rw [hopen] at ho; simp at ho
        · refine ⟨?_, ?_, ?_, ?_⟩
          · simp [h1, hopen, hg]
          · intro u ge hu ho _; simp [h1, hg]
          · simp [h1, hopen, hg]
          · intro u pdoc ge hu ho; subst hu; rw [hopen] at ho; simp at ho
    | some pdoc =>
      have h1 := open_native_ok host poppler_document_indeterminate document
        file_uri pdoc gerror huri hopen
      refine ⟨?_, ?_, ?_, ?_⟩
      · simp [h1, hopen]
      · intro u ge hu ho; subst hu; rw [hopen] at ho; simp at ho
      · simp [h1, hopen]
      · intro u pdoc2 ge hu ho
        subst hu
        rw [hopen] at ho
        simp only [Prod.mk.injEq, Option.some.injEq] at ho
        rw [← ho.1]
        exact h1

/-- Witness of C8: a native open that reports an encryption error gives
`ZATHURA_ERROR_INVALID_PASSWORD`; a native open that succeeds gives
`ZATHURA_ERROR_OK` and stores the handle and the page count 3. -/
theorem open_error_codes_witness :
    (pdf_document_open host_encrypted none (some zdoc_closed)).1 =
      ZATHURA_ERROR_INVALID_PASSWORD ∧
    pdf_document_open host_opens none (some zdoc_closed) =
      (ZATHURA_ERROR_OK,
        some { path := zdoc_closed.path, password := zdoc_closed.password,
               data := some pdoc0, number_of_pages := to_unsigned pdoc0.n_pages }) ∧
    to_unsigned pdoc0.n_pages = 3 :=
  ⟨(open_error_codes host_encrypted none zdoc_closed).1.mpr
      ⟨_, { code := POPPLER_ERROR_ENCRYPTED }, rfl, rfl, rfl⟩,
    (open_error_codes host_opens none zdoc_closed).2.2.2 _ pdoc0 none rfl rfl,
    by decide⟩

/-- C9, counterexample: for a non-null document whose path is `NULL`, with a
path-to-URI conversion that yields no URI, `pdf_document_open` returns
`ZATHURA_ERROR_UNKNOWN`, which is not `ZATHURA_ERROR_INVALID_ARGUMENTS`. -/
theorem open_null_path_counterexample :
    zdoc_nopath.path = none ∧ host0.g_filename_to_uri zdoc_nopath.path = none ∧
    (pdf_document_open host0 none (some zdoc_nopath)).1 = ZATHURA_ERROR_UNKNOWN ∧
    (pdf_document_open host0 none (some zdoc_nopath)).1 ≠ ZATHURA_ERROR_INVALID_ARGUMENTS :=
  ⟨rfl, rfl, by decide, by decide⟩

/-- C9, amended: for a non-null document whose path is `NULL`, so that the
path-to-URI conversion yields no URI, `pdf_document_open` fails with
`ZATHURA_ERROR_UNKNOWN` (line 79), whatever the native layer would answer;
`ZATHURA_ERROR_INVALID_ARGUMENTS` is what a `NULL` document gets, and no
non-null document ever gets it. -/
theorem open_null_path_unknown (host : Host)
    (poppler_document_indeterminate : Option PopplerDocument) (document : zathura_document_t)
    (hpath : document.path = none) (huri : host.g_filename_to_uri none = none) :
    (pdf_document_open host poppler_document_indeterminate (some document)).1 =
      ZATHURA_ERROR_UNKNOWN ∧
    pdf_document_open host poppler_document_indeterminate none =
      (ZATHURA_ERROR_INVALID_ARGUMENTS, none) ∧
    (∀ other : zathura_document_t,
      (pdf_document_open host poppler_document_indeterminate (some other)).1 ≠
        ZATHURA_ERROR_INVALID_ARGUMENTS) := by
  refine ⟨open_uri_none host _ document (by rw [hpath]; exact huri), rfl, ?_⟩
  intro other
  cases hu : host.g_filename_to_uri other.path with
  | none => rw [open_uri_none host _ other hu]; decide
  | some file_uri =>
    rcases hopen : host.poppler_document_new_from_file file_uri other.password with ⟨pdoc, gerror⟩
    cases pdoc with
    | none =>
      cases gerror with
      | none => rw [open_native_fail_plain host _ other file_uri hu hopen]; simp
      | some g =>
        rw [open_native_fail_gerror host _ other file_uri g hu hopen]
        by_cases hg : g.code = POPPLER_ERROR_ENCRYPTED <;> simp [hg]
    | some pdoc => rw [open_native_ok host _ other file_uri pdoc gerror hu hopen]; simp

/-- Witness of the amended C9 on the document `zdoc_nopath`. -/
theorem open_null_path_unknown_witness :
    zdoc_nopath.path = none ∧ host0.g_filename_to_uri none = none ∧
    (pdf_document_open host0 none (some zdoc_nopath)).1 = ZATHURA_ERROR_UNKNOWN ∧
    pdf_document_open host0 none none = (ZATHURA_ERROR_INVALID_ARGUMENTS, none) ∧
    (∀ other : zathura_document_t,
      (pdf_document_open host0 none (some other)).1 ≠ ZATHURA_ERROR_INVALID_ARGUMENTS) :=
  ⟨rfl, rfl, open_null_path_unknown host0 none zdoc_nopath rfl rfl⟩

/-! ### Page handles, attachment names, the double flip, images -/

/-- C11: in every number `n` of `pdf_page_init`/`pdf_page_clear` cycles on one
logical page, where each clear is passed the handle that the preceding init
stored, the count of live native page handles (0 before the first cycle, one
more after each acquisition by `poppler_document_get_page`, one less after
each release by `g_object_unref`) is 0 or 1 after each init and 0 after each
clear; all `n` cycles run. -/
theorem live_page_handles_bounded {α : Type} (native : PopplerPages α) (n : Nat)
    (page : zathura_page_full_t α) :
    (init_clear_cycles native n page 0).length = n ∧
    ∀ counts ∈ init_clear_cycles native n page 0,
      0 ≤ counts.1 ∧ counts.1 ≤ 1 ∧ counts.2 = 0 :=
  ⟨init_clear_cycles_length native n page 0, init_clear_cycles_counts native n page⟩

/-- Witness of C11: 100 cycles on the page with index 1 of a document of three
pages; the cycles exist, and the count is 1 after an init and 0 after the
clear. -/
theorem live_page_handles_bounded_witness :
    (init_clear_cycles native0 100 page_full0 0).length = 100 ∧
    ((1 : Int), (0 : Int)) ∈ init_clear_cycles native0 100 page_full0 0 ∧
    (0 ≤ (((1 : Int), (0 : Int)) : Int × Int).1 ∧ (((1 : Int), (0 : Int)) : Int × Int).1 ≤ 1 ∧
      (((1 : Int), (0 : Int)) : Int × Int).2 = 0) :=
  ⟨(live_page_handles_bounded native0 100 page_full0).1, by decide,
    (live_page_handles_bounded native0 100 page_full0).2 (1, 0) (by decide)⟩

/-- C12, counterexample: the native attachments of `pdoc_attachments` are
named `b.txt`, `a.txt`, `c.txt`, `a.txt`; the returned list is sorted but holds
`a.txt` twice, so it is not a set of names. -/
theorem attachments_names_once_counterexample :
    pdoc_attachments.has_attachments = true ∧
    pdf_document_attachments_get host0 (some zdoc0) (some pdoc_attachments) none =
      (some [some "a.txt", some "a.txt", some "b.txt", some "c.txt"], none) ∧
    ¬ List.Nodup [some "a.txt", some "a.txt", some "b.txt", some "c.txt"] :=
  ⟨rfl, by decide, by decide⟩

/-- C12, amended: for a document with attachment capability (and a list that
could be allocated) `pdf_document_attachments_get` returns a list that is
sorted in ascending `g_strcmp0` order and holds one entry per native
attachment, namely its name: the list is a permutation of the native names,
so a name that several attachments share occurs as often as they do, and when
the native names are pairwise distinct each name occurs once. -/
theorem attachments_sorted_permutation (host : Host) (document : zathura_document_t)
    (pd : PopplerDocument) (error : Option zathura_error_t)
    (hcap : pd.has_attachments = true)
    (hlist : host.girara_list_new_succeeds = true) :
    ∃ res, pdf_document_attachments_get host (some document) (some pd) error = (some res, error) ∧
      List.Sorted (fun a b => g_strcmp0 a b ≤ 0) res ∧
      List.Perm res (pd.attachments.map (fun attachment => attachment.name)) ∧
      ((pd.attachments.map (fun attachment => attachment.name)).Nodup → res.Nodup) := by
  refine ⟨pdf_document_attachments_get_loop pd.attachments [], ?_, ?_, ?_, ?_⟩
  · simp [pdf_document_attachments_get, hcap, hlist]
  · exact attachments_loop_sorted pd.attachments [] List.sorted_nil
  · simpa using attachments_loop_perm pd.attachments []
  · intro hnd
    have hp := attachments_loop_perm pd.attachments []
    simp only [List.nil_append] at hp
    exact hp.nodup_iff.mpr hnd

/-- Witness of the amended C12 on `pdoc0`, whose attachments are `a.txt` and
`b.txt`. -/
theorem attachments_sorted_permutation_witness :
    pdoc0.has_attachments = true ∧ host0.girara_list_new_succeeds = true ∧
    (pdoc0.attachments.map (fun attachment => attachment.name)).Nodup ∧
    ∃ res, pdf_document_attachments_get host0 (some zdoc0) (some pdoc0) none = (some res, none) ∧
      List.Sorted (fun a b => g_strcmp0 a b ≤ 0) res ∧
      List.Perm res (pdoc0.attachments.map (fun attachment => attachment.name)) ∧
      res.Nodup :=
  ⟨rfl, rfl, by decide,
    (attachments_sorted_permutation host0 zdoc0 pdoc0 none rfl rfl).imp
      (fun _ h => ⟨h.1, h.2.1, h.2.2.1, h.2.2.2 (by decide)⟩)⟩

/-- C13: over rational coordinates, the y-flip applied twice with the same
page height returns the original rectangle, for every rectangle and every
height (in particular every height above 0): this holds for `normalize`, for
the rectangles stored by the loop of `pdf_page_search_text` run on its own
output, and for the position stored by the loop body of `pdf_page_links_get`
run on a link whose area is the position it stored before. -/
theorem normalize_twice_is_identity (r : PopplerRectangle ℚ) (h : ℚ)
    (page : zathura_page_t ℚ) (rs : List (PopplerRectangle ℚ)) (m : PopplerLinkMapping ℚ) :
    normalize (as_native (normalize r h)) h = as_view r ∧
    pdf_page_search_text_loop page
        ((pdf_page_search_text_loop page (rs.map some) []).map (fun z => some (as_native z))) [] =
      rs.map as_view ∧
    (∀ l, pdf_page_links_get_body page m = some l →
      ∃ l2, pdf_page_links_get_body page { m with area := as_native l.position } = some l2 ∧
        l2.position = as_view m.area) := by
  have hflip : ∀ (q : PopplerRectangle ℚ) (k : ℚ),
      normalize (as_native (normalize q k)) k = as_view q := by
    intro q k
    simp [normalize, as_native, as_view]
  refine ⟨hflip r h, ?_, ?_⟩
  · have htake : ∀ l : List (PopplerRectangle ℚ),
        ((l.map some).takeWhile Option.isSome).filterMap id = l := by
      intro l
      induction l with
      | nil => rfl
      | cons a l ih => simp [List.takeWhile_cons, ih]
    rw [search_loop_eq, search_loop_eq, htake]
    simp only [List.nil_append, List.map_map]
    have h2 : (List.map ((fun z => some (as_native z)) ∘ fun q => normalize q page.height) rs) =
        (rs.map (fun q => as_native (normalize q page.height))).map some := by
      simp [List.map_map, Function.comp_def]
    rw [h2, htake, List.map_map]
    apply List.map_congr_left
    intro q _
    exact hflip q page.height
  · intro l hl
    have hsup : supported_action_type m.action.type = true := by
      have := links_body_isSome page m
      rw [hl] at this
      simpa using this.symm
    have hsome := links_body_isSome page { m with area := as_native l.position }
    rw [hsup] at hsome
    cases h2 : pdf_page_links_get_body page { m with area := as_native l.position } with
    | none => rw [h2] at hsome; simp at hsome
    | some l2 =>
      refine ⟨l2, rfl, ?_⟩
      rw [links_body_position page _ l2 h2, links_body_position page m l hl]
      exact hflip m.area page.height

/-- Witness of C13 on a link of a page of height 100: the loop body stores a
position, and run on that position as area it stores the original area. -/
theorem normalize_twice_is_identity_witness :
    ∃ l l2, pdf_page_links_get_body page_rat link_rat = some l ∧
      pdf_page_links_get_body page_rat { link_rat with area := as_native l.position } = some l2 ∧
      l2.position = as_view link_rat.area :=
  match (normalize_twice_is_identity link_rat.area 100 page_rat [] link_rat).2.2 _
      (links_body_goto page_rat link_rat rfl) with
  | ⟨l2, h1, h2⟩ => ⟨_, l2, links_body_goto page_rat link_rat rfl, h1, h2⟩

/-- C14: for a non-empty native image mapping (and a list that could be
allocated) `pdf_page_images_get` returns one image handle per native entry, in
native order, each with the image id of the entry and with its area copied
coordinate by coordinate, without a flip; for an empty native mapping it
returns no list and stores `ZATHURA_ERROR_UNKNOWN` through a non-null
`error`. -/
theorem images_in_native_order {α : Type} (host : Host) (page : zathura_page_t α)
    (poppler_page : PopplerPage α) (error : Option zathura_error_t)
    (hlist : host.girara_list_new_succeeds = true) :
    (poppler_page.image_mapping ≠ [] →
      pdf_page_images_get host (some page) (some poppler_page) error =
        (some (poppler_page.image_mapping.map (fun poppler_image =>
          ({ position :=
               { x1 := poppler_image.area.x1, y1 := poppler_image.area.y1,
                 x2 := poppler_image.area.x2, y2 := poppler_image.area.y2 }
             data := some poppler_image.image_id } : zathura_image_t α))), error)) ∧
    (poppler_page.image_mapping = [] →
      pdf_page_images_get host (some page) (some poppler_page) error =
        (none, error.map (fun _ => ZATHURA_ERROR_UNKNOWN))) := by
  constructor
  · intro hne
    cases hm : poppler_page.image_mapping with
    | nil => exact absurd hm hne
    | cons m ms =>
      have h := images_loop_eq (m :: ms) []
      simp only [List.nil_append] at h
      simp [pdf_page_images_get, hm, hlist, h]
  · intro he
    cases error <;> simp [pdf_page_images_get, he, set_error]

/-- Witness of C14: the page `ppage_images` has two images, with the ids 7 and
9, and yields their two handles in this order; the page `ppage0` has no image
and yields no list. -/
theorem images_in_native_order_witness :
    host0.girara_list_new_succeeds = true ∧ ppage_images.image_mapping ≠ [] ∧
    ppage0.image_mapping = [] ∧
    pdf_page_images_get host0 (some page0) (some ppage_images) (some ZATHURA_ERROR_OK) =
      (some
        [ { position := { x1 := 1, y1 := 10, x2 := 2, y2 := 30 }, data := some 7 },
          { position := { x1 := 3, y1 := 40, x2 := 4, y2 := 45 }, data := some 9 } ],
        some ZATHURA_ERROR_OK) ∧
    pdf_page_images_get host0 (some page0) (some ppage0) (some ZATHURA_ERROR_OK) =
      (none, some ZATHURA_ERROR_UNKNOWN) :=
  ⟨rfl, by decide, rfl,
    (images_in_native_order host0 page0 ppage_images (some ZATHURA_ERROR_OK) rfl).1 (by decide),
    (images_in_native_order host0 page0 ppage0 (some ZATHURA_ERROR_OK) rfl).2 rfl⟩

end PdfPoppler
